import Mathlib

/-!
Verification development for the `vercel-assistant-chat` repository: a shallow
embedding in Lean 4 of the conversation-turn orchestration and transcript
protocol of the app, together with theorems settling the specification claims.

The embedding mirrors the TypeScript source files:
  * `src/app/page.tsx`                        (client page, namespace `ClientPage`)
  * `src/app/api/chat/route.ts`               (namespace `ChatApi`)
  * `src/app/api/transcript/append/route.ts`  (namespace `TranscriptAppendApi`)
  * `src/app/api/transcript/start/route.ts`   (namespace `TranscriptStartApi`)

JavaScript strings are modelled as Lean `String`; machine timestamps
(`Date.now()` milliseconds) as `Nat`; fallible/absent JS values
(`undefined`, non-string, thrown exceptions) as `Option`/explicit outcome
types; network calls as explicit outcome parameters plus emitted effect lists.
-/

/-! ## JavaScript string primitives -/

/-- One scanning step of literal (non-regex) `String.prototype.replaceAll`:
left-to-right scan, replacing each non-overlapping occurrence of `p` by `r`.
The `fuel` argument is an upper bound on the number of scan steps; callers pass
the length of the scanned list, which is sufficient whenever `p ≠ []`. -/
def replaceAllAux (p r : List Char) : Nat → List Char → List Char
  | 0, s => s
  | _ + 1, [] => []
  | fuel + 1, c :: rest =>
    if p.isPrefixOf (c :: rest) then
      r ++ replaceAllAux p r fuel ((c :: rest).drop p.length)
    else
      c :: replaceAllAux p r fuel rest

/-- JS `s.replaceAll(p, r)` for a non-empty literal pattern `p` (every pattern
in this repository is a fixed non-empty literal; the empty-pattern corner of
the JS semantics is unused and modelled as the identity). -/
def jsReplaceAll (s p r : String) : String :=
  if p.data = [] then s
  else { data := replaceAllAux p.data r.data s.data.length s.data }

/-- JS `String.prototype.trim` (the inputs exercised here contain only ASCII
whitespace, where JS `trim` and trimming by `Char.isWhitespace` agree):
drop whitespace from both ends. -/
def jsTrim (s : String) : String :=
  { data := ((s.data.dropWhile Char.isWhitespace).reverse.dropWhile
      Char.isWhitespace).reverse }

/-- JS `s.endsWith(suffix)`. -/
def jsEndsWith (s suffix : String) : Bool :=
  decide (suffix.data <:+ s.data)

/-- JS `s.toLowerCase()` (ASCII arguments only in this repository). -/
def jsToLower (s : String) : String :=
  { data := s.data.map Char.toLower }

/-- JS truthy-or-default `v || d` for an optional string `v`
(`undefined`/`null`/missing and the empty string both fall back to `d`). -/
def jsOr (v : Option String) (d : String) : String :=
  match v with
  | none => d
  | some s => if s = "" then d else s

/-- JS `s.includes(pat)` (substring containment). -/
def jsIncludes (s pat : String) : Bool :=
  decide (pat.data <:+: s.data)

/-- JS `s.startsWith(pre)`. -/
def jsStartsWith (s pre : String) : Bool :=
  pre.data.isPrefixOf s.data

/-! ## Blob-storage effect (shared by the API routes)

`put(path, content, { allowOverwrite })` on `@vercel/blob` is recorded as an
explicit effect; `list`/`fetch` reads are supplied by the environment. -/

structure BlobPut where
  path : String
  content : String
  allowOverwrite : Bool
  deriving DecidableEq, Repr

namespace TranscriptAppendApi

/-! Embedding of `src/app/api/transcript/append/route.ts` (the variant with
finalize mode and the optional metadata header, which the repository serves). -/

inductive Role
  | user
  | assistant
  deriving DecidableEq, Repr

/-- `cleanTextBlock`: normalize CRLF and bare CR to LF, then trim. -/
def cleanTextBlock (s : String) : String :=
  jsTrim (jsReplaceAll (jsReplaceAll s "\r\n" "\n") "\r" "\n")

/-- `normaliseRole`: case-insensitive role aliases. `none` models both a
non-string value and an unrecognized name. -/
def normaliseRole (raw : Option String) : Option Role :=
  match raw with
  | none => none
  | some s =>
    let v := jsToLower (jsTrim s)
    if v = "user" then some Role.user
    else if v = "assistant" then some Role.assistant
    else if v = "you" then some Role.user
    else if v = "ai" then some Role.assistant
    else if v = "bot" then some Role.assistant
    else none

def Role.label : Role → String
  | Role.user => "user"
  | Role.assistant => "assistant"

/-- `formatLine`: one `[ts] role: text` line, empty when the text cleans to
nothing. -/
def formatLine (ts : String) (role : Role) (text : String) : String :=
  let safeText := cleanTextBlock text
  if safeText = "" then ""
  else "[" ++ ts ++ "] " ++ role.label ++ ": " ++ safeText ++ "\n"

/-- `buildMetadataHeader`: the serialized JSON line is supplied already
stringified (JSON.stringify is outside the string model). -/
def buildMetadataHeader (jsonLine : String) : String :=
  "Metadata:\n" ++ jsonLine ++ "\n\n"

/-- Request body of the append/finalize endpoint. `Option` fields model
absent or non-string JS values (which the route treats alike); `metadata`
carries the stringified form of a supplied plain object. -/
structure Body where
  transcriptId : Option String
  mode : Option String
  fullText : Option String
  metadata : Option String
  ts : Option String
  line : Option String
  role : Option String
  text : Option String
  deriving Repr

/-- Environment of one request: the stored blob text found by
`list` + `fetch` (`none` when the blob is missing or the read fails), and the
server clock's ISO timestamp. -/
structure Env where
  existingText : Option String
  nowIso : String
  deriving Repr

structure Resp where
  status : Nat
  ok : Bool
  error : Option String
  skipped : Bool
  modeEcho : Option String
  metadataIncluded : Option Bool
  deriving DecidableEq, Repr

def okResp : Resp :=
  { status := 200, ok := true, error := none, skipped := false
    modeEcho := none, metadataIncluded := none }

def errResp (status : Nat) (msg : String) : Resp :=
  { status := status, ok := false, error := some msg, skipped := false
    modeEcho := none, metadataIncluded := none }

/-- Default transcript header used when an append finds no stored blob. -/
def fallbackHeader (transcriptId nowIso : String) : String :=
  "Chat transcript started\n" ++
  "TranscriptId: " ++ transcriptId ++ "\n" ++
  "StartedAt: " ++ nowIso ++ "\n\n"

/-- Shared tail of the legacy append path: read the current blob text (or
fall back to a fresh header), append the new line, write back. -/
def appendWrite (path transcriptId newLine : String) (env : Env) :
    Resp × List BlobPut :=
  let currentText := match env.existingText with
    | some t => if t = "" then fallbackHeader transcriptId env.nowIso else t
    | none => fallbackHeader transcriptId env.nowIso
  let updatedText := currentText ++ newLine
  ({ okResp with modeEcho := some "append" },
   [{ path := path, content := updatedText, allowOverwrite := true }])

/-- The `POST` handler of the append route. -/
def POST (body : Body) (env : Env) : Resp × List BlobPut :=
  match body.transcriptId with
  | none => (errResp 400 "Missing transcriptId", [])
  | some transcriptId =>
    if transcriptId = "" then (errResp 400 "Missing transcriptId", [])
    else
      let path := "chat-transcripts/" ++ transcriptId ++ ".txt"
      let mode := match body.mode with
        | some m => jsToLower (jsTrim m)
        | none => "append"
      if mode = "finalize" then
        match body.fullText with
        | none => (errResp 400 "Missing fullText for finalize", [])
        | some fullText =>
          if fullText = "" then (errResp 400 "Missing fullText for finalize", [])
          else
            let safeTranscript := cleanTextBlock fullText
            if safeTranscript = "" then
              ({ okResp with skipped := true }, [])
            else
              let header := match body.metadata with
                | some m => buildMetadataHeader m
                | none => ""
              let transcriptBody :=
                if jsEndsWith safeTranscript "\n" then safeTranscript
                else safeTranscript ++ "\n"
              let finalText := header ++ transcriptBody
              ({ okResp with modeEcho := some "finalize"
                             metadataIncluded := some body.metadata.isSome },
               [{ path := path, content := finalText, allowOverwrite := true }])
      else
        let ts := match body.ts with
          | some t => t
          | none => env.nowIso
        let lineGiven := match body.line with
          | some l => jsTrim l != ""
          | none => false
        if lineGiven then
          let safe := cleanTextBlock (match body.line with
            | some l => l
            | none => "")
          if safe = "" then ({ okResp with skipped := true }, [])
          else
            let newLine := if jsEndsWith safe "\n" then safe else safe ++ "\n"
            appendWrite path transcriptId newLine env
        else
          match normaliseRole body.role with
          | none => (errResp 400 "Invalid role", [])
          | some role =>
            match body.text with
            | none => (errResp 400 "Missing text", [])
            | some text =>
              if text = "" then (errResp 400 "Missing text", [])
              else
                let newLine := formatLine ts role text
                if newLine = "" then ({ okResp with skipped := true }, [])
                else appendWrite path transcriptId newLine env

end TranscriptAppendApi

namespace TranscriptStartApi

/-! Embedding of `src/app/api/transcript/start/route.ts` (the variant that
accepts an optional JSON body with `prolificId`/`threadId` header fields). -/

/-- Regex replace of `/[\r\n]+/g` by a single space: each maximal run of
carriage returns and line feeds collapses to one `' '`. -/
def collapseNewlineRunsAux : Bool → List Char → List Char
  | _, [] => []
  | inRun, c :: rest =>
    if c = '\r' ∨ c = '\n' then
      if inRun then collapseNewlineRunsAux true rest
      else ' ' :: collapseNewlineRunsAux true rest
    else c :: collapseNewlineRunsAux false rest

/-- `safeLine`: trim, reject empty / non-string, collapse CR/LF runs to a
space.  (Note: no tab handling and no length cap.) -/
def safeLine (value : Option String) : Option String :=
  match value with
  | none => none
  | some s =>
    let trimmed := jsTrim s
    if trimmed = "" then none
    else some { data := collapseNewlineRunsAux false trimmed.data }

structure Body where
  prolificId : Option String
  threadId : Option String
  deriving Repr

/-- Environment of one request: the generated transcript id
(`makeTranscriptId` uses the clock and `Math.random`) and the ISO start
timestamp. -/
structure Env where
  transcriptId : String
  startedAt : String
  deriving Repr

/-- The header block written by the start route. -/
def initialText (transcriptId startedAt : String)
    (prolificId threadId : Option String) : String :=
  "Chat transcript started\n" ++
  "TranscriptId: " ++ transcriptId ++ "\n" ++
  "StartedAt: " ++ startedAt ++ "\n" ++
  (match prolificId with
   | some p => "ProlificId: " ++ p ++ "\n"
   | none => "") ++
  (match threadId with
   | some t => "ThreadId: " ++ t ++ "\n"
   | none => "") ++
  "\n"

/-- The `POST` handler of the start route (success path; the catch-all 500 on
a storage failure carries no logic). -/
def POST (body : Option Body) (env : Env) : List BlobPut :=
  let prolificId := safeLine (match body with
    | some b => b.prolificId
    | none => none)
  let threadId := safeLine (match body with
    | some b => b.threadId
    | none => none)
  let path := "chat-transcripts/" ++ env.transcriptId ++ ".txt"
  [{ path := path
     content := initialText env.transcriptId env.startedAt prolificId threadId
     allowOverwrite := false }]

end TranscriptStartApi

namespace ChatApi

/-! Embedding of `src/app/api/chat/route.ts` (the complete variant served by
the repository: survey-context injection, per-message transcript writes, and
the TopBenefit/TopRisk/ParticipantID placeholder substitutions). -/

/-- `safeId`: trim, reject empty / non-string, strip every character outside
`[a-zA-Z0-9._-]`. -/
def safeId (value : Option String) : Option String :=
  match value with
  | none => none
  | some s =>
    let trimmed := jsTrim s
    if trimmed = "" then none
    else some { data := (trimmed.data.filter
      (fun c => c.isAlphanum || c = '.' || c = '_' || c = '-')) }

/-- `safeText`: delete every carriage return. -/
def safeText (value : Option String) : String :=
  match value with
  | none => ""
  | some s => jsReplaceAll s "\r" ""

/-- `safeContextValue`: trim, blank CR/LF/tab to spaces, cap at 240 units. -/
def safeContextValue (value : Option String) : String :=
  match value with
  | none => ""
  | some s =>
    let trimmed := jsTrim s
    if trimmed = "" then ""
    else { data := (trimmed.data.map
      (fun c => if c = '\r' ∨ c = '\n' ∨ c = '\t' then ' ' else c)).take 240 }

/-- `safeParticipantId`: trim, blank CR/LF/tab to spaces, cap at 120 units
(deliberately not restricted to alphanumerics, per the source comment). -/
def safeParticipantId (value : Option String) : String :=
  match value with
  | none => ""
  | some s =>
    let trimmed := jsTrim s
    if trimmed = "" then ""
    else { data := (trimmed.data.map
      (fun c => if c = '\r' ∨ c = '\n' ∨ c = '\t' then ' ' else c)).take 120 }

def applyTopBenefitSubstitution (reply topBenefit : String) : String :=
  if reply = "" then reply
  else if topBenefit = "" then reply
  else
    jsReplaceAll (jsReplaceAll (jsReplaceAll (jsReplaceAll (jsReplaceAll reply
      "$\x7bTopBenefit\x7d" topBenefit)
      "$\x7btopBenefit\x7d" topBenefit)
      "\x7bTopBenefit\x7d" topBenefit)
      "\x7btopBenefit\x7d" topBenefit)
      "$\x7be://Field/TopBenefit\x7d" topBenefit

def applyTopRiskSubstitution (reply topRisk : String) : String :=
  if reply = "" then reply
  else if topRisk = "" then reply
  else
    jsReplaceAll (jsReplaceAll (jsReplaceAll (jsReplaceAll (jsReplaceAll reply
      "$\x7bTopRisk\x7d" topRisk)
      "$\x7btopRisk\x7d" topRisk)
      "\x7bTopRisk\x7d" topRisk)
      "\x7btopRisk\x7d" topRisk)
      "$\x7be://Field/TopRisk\x7d" topRisk

def applyParticipantIdSubstitution (reply participantId : String) : String :=
  if reply = "" then reply
  else if participantId = "" then reply
  else
    jsReplaceAll (jsReplaceAll (jsReplaceAll (jsReplaceAll (jsReplaceAll reply
      "$\x7bParticipantID\x7d" participantId)
      "$\x7bparticipantId\x7d" participantId)
      "\x7bParticipantID\x7d" participantId)
      "\x7bparticipantId\x7d" participantId)
      "$\x7be://Field/ParticipantID\x7d" participantId

/-! ### Run serialization gate -/

/-- One entry of `openai.beta.threads.runs.list(...).data`. -/
structure RunInfo where
  status : String
  deriving DecidableEq, Repr

/-- Result of one `runs.list` poll: the listed runs, or a thrown service
error. -/
inductive PollOutcome
  | ok (runs : List RunInfo)
  | err
  deriving Repr

/-- The run states the gate treats as active (non-terminal). -/
def activeStatuses : List String :=
  ["queued", "in_progress", "requires_action", "cancelling"]

/-- `runs.data.find(r => [...].includes(r.status))` drives the wait loop; the
gate only needs whether such a run exists. -/
def hasActiveRun (runs : List RunInfo) : Bool :=
  runs.any (fun r => activeStatuses.contains r.status)

/-- The `while (Date.now() - start < maxWaitMs)` loop of `waitForNoActiveRun`:
`elapsed` counts the slept milliseconds (each sleep is 500ms, polls are
instantaneous in the time model), `i` indexes the polls, `fuel` bounds the
iterations structurally (the wrapper passes enough for the whole budget).
Returns the gate verdict (`true` = clear) and the elapsed time on return. -/
def waitLoop (poll : Nat → PollOutcome) (maxWaitMs : Nat) :
    Nat → Nat → Nat → Bool × Nat
  | 0, elapsed, _ => (false, elapsed)
  | fuel + 1, elapsed, i =>
    if elapsed < maxWaitMs then
      match poll i with
      | PollOutcome.err => (true, elapsed)
      | PollOutcome.ok runs =>
        if hasActiveRun runs then
          waitLoop poll maxWaitMs fuel (elapsed + 500) (i + 1)
        else (true, elapsed)
    else (false, elapsed)

/-- `waitForNoActiveRun(threadId, maxWaitMs)`: the thread is identified by its
poll stream. `maxWaitMs / 500 + 1` iterations always exhaust the time budget,
so the fuel never runs out before the wall-clock check does. -/
def waitForNoActiveRun (poll : Nat → PollOutcome) (maxWaitMs : Nat) :
    Bool × Nat :=
  waitLoop poll maxWaitMs (maxWaitMs / 500 + 1) 0 0

/-! ### Survey-context injection and transcript writes -/

def benefitContextMessage (pfxLabel topBenefit : String)
    (isNewThread : Bool) : String :=
  pfxLabel ++ " (provided by the survey system, not the participant): " ++
  "The participant ranked \"" ++ topBenefit ++
  "\" as the MOST IMPORTANT potential benefit of AI in future VR environments.\n\n" ++
  "INTERVIEWER INSTRUCTION: When you ask Question 4, explicitly name that ranked benefit using the exact wording above. " ++
  "Do not ask the participant to restate the benefit. Treat this ranking as authoritative." ++
  (if isNewThread then ""
   else " If any earlier context in this thread differs, override it with the value above.")

def riskContextMessage (pfxLabel topRisk : String)
    (isNewThread : Bool) : String :=
  pfxLabel ++ " (provided by the survey system, not the participant): " ++
  "The participant ranked \"" ++ topRisk ++
  "\" as the MOST CONCERNING potential risk of AI in future VR environments.\n\n" ++
  "INTERVIEWER INSTRUCTION: When you ask Question 6, explicitly name that ranked risk using the exact wording above. " ++
  "Do not ask the participant to restate the risk. Treat this ranking as authoritative." ++
  (if isNewThread then ""
   else " If any earlier context in this thread differs, override it with the value above.")

/-- Effects the chat route performs against the assistant service and blob
storage (message-level metadata tags are not modelled). -/
inductive ServerEffect
  | retrieveThread (id : String)
  | createThread
  | createContextMessage (threadId content : String)
  | putBlob (p : BlobPut)
  | createUserMessage (threadId content : String)
  | createRun (threadId : String)
  deriving DecidableEq, Repr

/-- `injectSurveyContext`: one context message per supplied non-empty value,
with the `SURVEY_CONTEXT` / `SURVEY_CONTEXT_UPDATE` label. -/
def injectSurveyContext (threadId topBenefit topRisk : String)
    (isNewThread : Bool) : List ServerEffect :=
  let pfxLabel := if isNewThread then "SURVEY_CONTEXT" else "SURVEY_CONTEXT_UPDATE"
  (if topBenefit ≠ "" then
    [ServerEffect.createContextMessage threadId
      (benefitContextMessage pfxLabel topBenefit isNewThread)]
   else []) ++
  (if topRisk ≠ "" then
    [ServerEffect.createContextMessage threadId
      (riskContextMessage pfxLabel topRisk isNewThread)]
   else [])

structure WriteMsgArgs where
  transcriptId : String
  role : String
  text : String
  inputMode : Option String
  threadId : Option String
  participantId : Option String
  deriving Repr

/-- `writeTranscriptMessage`: one immutable per-message blob
(`allowOverwrite: false`), or nothing when the transcript id sanitizes away. -/
def writeTranscriptMessage (nowIso : String) (nowMs : Nat)
    (a : WriteMsgArgs) : List BlobPut :=
  match safeId (some a.transcriptId) with
  | none => []
  | some transcriptId =>
    let path := "chat-transcripts/" ++ transcriptId ++ "/messages/" ++
      toString nowMs ++ "-" ++ a.role ++ ".txt"
    let content :=
      "Timestamp: " ++ nowIso ++ "\n" ++
      (match a.threadId with
       | some t => "ThreadId: " ++ t ++ "\n"
       | none => "") ++
      (match a.participantId with
       | some p => "ParticipantID: " ++ p ++ "\n"
       | none => "") ++
      (match a.inputMode with
       | some m => "InputMode: " ++ m ++ "\n"
       | none => "") ++
      "Role: " ++ a.role ++ "\n\n" ++
      safeText (some a.text) ++ "\n"
    [{ path := path, content := content, allowOverwrite := false }]

/-! ### The chat `POST` handler -/

/-- One element of `content` of a listed thread message. -/
structure ContentPart where
  type : String
  textValue : String
  deriving DecidableEq, Repr

/-- One entry of `openai.beta.threads.messages.list(...).data`. -/
structure ListedMsg where
  role : String
  contentHead : Option ContentPart
  deriving DecidableEq, Repr

/-- Request body of the chat endpoint, with the accepted field aliases.
`Option` fields model absent or non-string values. -/
structure ChatBody where
  message : Option String
  threadId : Option String
  inputMode : Option String
  topBenefit : Option String
  TopBenefit : Option String
  top_benefit : Option String
  topbenefit : Option String
  topRisk : Option String
  TopRisk : Option String
  top_risk : Option String
  toprisk : Option String
  transcriptId : Option String
  participantId : Option String
  ParticipantID : Option String
  participantID : Option String
  deriving Repr

/-- A chat body with every field absent (the aliases default from here). -/
def emptyChatBody : ChatBody :=
  { message := none, threadId := none, inputMode := none
    topBenefit := none, TopBenefit := none, top_benefit := none
    topbenefit := none, topRisk := none, TopRisk := none, top_risk := none
    toprisk := none, transcriptId := none, participantId := none
    ParticipantID := none, participantID := none }

/-- Environment of one chat request: configuration, the external assistant
service's behavior, and the clock. `retrieveOk` is whether
`threads.retrieve(existingThreadId)` succeeds; `injectOk`, `userWriteOk` and
`assistantWriteOk` are whether the corresponding best-effort side calls throw
(their failures are caught and swallowed by the route). -/
structure ChatEnv where
  assistantId : Option String
  retrieveOk : Bool
  createdThreadId : String
  poll : Nat → PollOutcome
  injectOk : Bool
  userWriteOk : Bool
  runStatus : String
  runLastError : Option String
  listed : List ListedMsg
  assistantWriteOk : Bool
  nowIso : String
  nowMs : Nat

structure ChatResp where
  status : Nat
  error : Option String
  reply : Option String
  threadId : Option String
  transcriptId : Option String
  participantId : Option String
  deriving DecidableEq, Repr

def chatErrResp (status : Nat) (msg : String) : ChatResp :=
  { status := status, error := some msg, reply := none, threadId := none
    transcriptId := none, participantId := none }

/-- The `POST` handler of the chat route. -/
def POST (body : ChatBody) (env : ChatEnv) : ChatResp × List ServerEffect :=
  let incomingTopBenefit :=
    body.topBenefit <|> body.TopBenefit <|> body.top_benefit <|> body.topbenefit
  let topBenefit := safeContextValue incomingTopBenefit
  let incomingTopRisk :=
    body.topRisk <|> body.TopRisk <|> body.top_risk <|> body.toprisk
  let topRisk := safeContextValue incomingTopRisk
  let transcriptId := safeId body.transcriptId
  let incomingParticipantId :=
    body.participantId <|> body.ParticipantID <|> body.participantID
  let participantId := safeParticipantId incomingParticipantId
  let inputMode := if body.inputMode = some "audio" then "audio" else "text"
  match body.message with
  | none => (chatErrResp 400 "No message provided", [])
  | some message =>
    if message = "" then (chatErrResp 400 "No message provided", [])
    else
      match env.assistantId with
      | none => (chatErrResp 500 "Assistant ID missing in env vars", [])
      | some _assistantId =>
        let existingThreadId := match body.threadId with
          | some t => if jsStartsWith t "thread_" then some t else none
          | none => none
        let threadResolution : String × List ServerEffect :=
          match existingThreadId with
          | some t =>
            if env.retrieveOk then (t, [ServerEffect.retrieveThread t])
            else (env.createdThreadId,
                  [ServerEffect.retrieveThread t, ServerEffect.createThread])
          | none => (env.createdThreadId, [ServerEffect.createThread])
        let threadId := threadResolution.1
        let threadEffs := threadResolution.2
        let isNewThread := match existingThreadId with
          | none => true
          | some t => threadId ≠ t
        let guard := waitForNoActiveRun env.poll 15000
        if guard.1 = false then
          (chatErrResp 409
            "Please wait a moment. The assistant is still finishing the previous step. Then try sending again.",
           threadEffs)
        else
          let injectEffs :=
            if topBenefit ≠ "" ∨ topRisk ≠ "" then
              if env.injectOk then
                injectSurveyContext threadId topBenefit topRisk isNewThread
              else []
            else []
          let userWriteEffs := match transcriptId with
            | some tid =>
              if env.userWriteOk then
                (writeTranscriptMessage env.nowIso env.nowMs
                  { transcriptId := tid, role := "user", text := message
                    inputMode := some inputMode, threadId := some threadId
                    participantId :=
                      if participantId = "" then none else some participantId
                  }).map ServerEffect.putBlob
              else []
            | none => []
          let turnEffs :=
            [ServerEffect.createUserMessage threadId message,
             ServerEffect.createRun threadId]
          let effsSoFar := threadEffs ++ injectEffs ++ userWriteEffs ++ turnEffs
          if env.runStatus ≠ "completed" then
            (chatErrResp 500
              (jsOr env.runLastError ("Run ended with status " ++ env.runStatus)),
             effsSoFar)
          else
            let lastAssistantMsg := env.listed.find? (fun m => m.role == "assistant")
            let reply0 := match lastAssistantMsg with
              | some m =>
                match m.contentHead with
                | some c =>
                  if c.type = "text" then c.textValue
                  else "No assistant reply found."
                | none => "No assistant reply found."
              | none => "No assistant reply found."
            let reply1 := applyTopBenefitSubstitution reply0 topBenefit
            let reply2 := applyTopRiskSubstitution reply1 topRisk
            let reply := applyParticipantIdSubstitution reply2 participantId
            let assistantWriteEffs := match transcriptId with
              | some tid =>
                if env.assistantWriteOk then
                  (writeTranscriptMessage env.nowIso env.nowMs
                    { transcriptId := tid, role := "assistant", text := reply
                      inputMode := none, threadId := some threadId
                      participantId :=
                        if participantId = "" then none else some participantId
                    }).map ServerEffect.putBlob
                else []
              | none => []
            ({ status := 200, error := none, reply := some reply
               threadId := some threadId, transcriptId := transcriptId
               participantId :=
                 if participantId = "" then none else some participantId },
             effsSoFar ++ assistantWriteEffs)

end ChatApi

namespace ClientPage

/-! Embedding of the client component in `src/app/page.tsx`: the React state
and refs become one state record, the network calls become outcome parameters
in a per-call environment, and the outbound requests / parent-window messages
become effects. -/

inductive Role
  | user
  | assistant
  deriving DecidableEq, Repr

structure ChatMsg where
  role : Role
  text : String
  deriving DecidableEq, Repr

inductive InputMode
  | text
  | audio
  deriving DecidableEq, Repr

/-- The component's state and refs relevant to turn submission, end-of-session
detection and transcript finalization. -/
structure ClientState where
  messages : List ChatMsg
  input : String
  threadId : Option String
  isLoading : Bool
  isTranscribing : Bool
  inputMode : InputMode
  transcriptId : Option String
  transcriptFinalized : Bool
  interviewStatus : String
  chatStartTime : Option Nat
  chatCompleted : Bool
  deriving DecidableEq, Repr

/-- The structured completion summary posted to the embedding parent. -/
structure SummaryPayload where
  type : String
  threadId : Option String
  messageCount : Nat
  userMessageCount : Nat
  durationSeconds : Option Int
  finishedReason : String
  completionTimestamp : String
  deriving DecidableEq, Repr

/-- Outbound actions of the client. -/
inductive ClientEffect
  | chatRequest (message : String) (threadId : Option String) (inputMode : InputMode)
  | transcriptStartRequest (startedAt : String) (threadId : Option String)
  | transcriptFinalizeRequest (transcriptId : String) (fullText : String)
  | postParentMessage (payload : SummaryPayload)
  deriving DecidableEq, Repr

/-- Result of the `/api/chat` fetch: parsed success data, a non-2xx response,
or a thrown network error. -/
inductive ChatFetchOutcome
  | success (reply : Option String) (threadId : Option String)
  | httpError (errorMsg : Option String)
  | exception (msg : Option String)

/-- Result of the `/api/transcript/start` fetch. -/
inductive StartOutcome
  | ok (transcriptId : Option String) (startedAt : Option String)
  | httpError
  | exception

/-- Clock readings and network outcomes for one client call chain. -/
structure ClientEnv where
  startNow : Nat
  endNow : Nat
  nowIso : String
  embedded : Bool
  chatOutcome : ChatFetchOutcome
  startOutcome : StartOutcome

/-- `Math.round((endTime - start) / 1000)` on millisecond integers. -/
def jsRoundMsToSec (d : Int) : Int := (d + 500).fdiv 1000

/-- `cleanBlock`: the client-side copy of the CRLF normalization + trim. -/
def cleanBlock (s : String) : String :=
  jsTrim (jsReplaceAll (jsReplaceAll s "\r\n" "\n") "\r" "\n")

structure BuildArgs where
  transcriptId : String
  startedAt : String
  threadId : Option String
  allMsgs : List ChatMsg
  deriving Repr

/-- `buildFinalTranscript`: header lines, blank separator, then one
`Role: text` block (plus a blank line) per non-empty cleaned message. -/
def buildFinalTranscript (a : BuildArgs) : String :=
  let headerLines : List String :=
    ["Chat transcript",
     "TranscriptId: " ++ a.transcriptId,
     "StartedAt: " ++ a.startedAt] ++
    (match a.threadId with
     | some t => ["ThreadId: " ++ t]
     | none => []) ++
    [""]
  let bodyLines : List String :=
    a.allMsgs.flatMap (fun m =>
      let roleLabel := match m.role with
        | Role.user => "User"
        | Role.assistant => "Assistant"
      let text := cleanBlock m.text
      if text = "" then []
      else [roleLabel ++ ": " ++ text, ""])
  String.intercalate "\n" headerLines ++ "\n" ++ String.intercalate "\n" bodyLines

/-- `ensureTranscriptStarted`: returns the `{ id, startedAt }` pair of the
source, the updated state, and the emitted request (if any). -/
def ensureTranscriptStarted (env : ClientEnv) (s : ClientState) :
    (Option String × Option String) × ClientState × List ClientEffect :=
  match s.transcriptId with
  | some id => ((some id, none), s, [])
  | none =>
    let eff := ClientEffect.transcriptStartRequest env.nowIso
      (match s.threadId with
       | some t => if jsStartsWith t "thread_" then some t else none
       | none => none)
    match env.startOutcome with
    | StartOutcome.ok tid startedAt =>
      match tid with
      | some tidVal =>
        if tidVal = "" then ((none, none), s, [eff])
        else ((some tidVal, startedAt),
              { s with transcriptId := some tidVal }, [eff])
      | none => ((none, none), s, [eff])
    | StartOutcome.httpError => ((none, none), s, [eff])
    | StartOutcome.exception => ((none, none), s, [eff])

structure FinalizeArgs where
  finalMessagesSnapshot : List ChatMsg
  finalThreadId : Option String
  deriving Repr

/-- `finalizeTranscriptOnce`: latch on `transcriptFinalizedRef`, then build
and ship the full transcript (best-effort; the fetch outcome is ignored). -/
def finalizeTranscriptOnce (env : ClientEnv) (args : FinalizeArgs)
    (s : ClientState) : ClientState × List ClientEffect :=
  if s.transcriptFinalized then (s, [])
  else
    let s1 := { s with transcriptFinalized := true }
    let started := ensureTranscriptStarted env s1
    let s2 := started.2.1
    let effs := started.2.2
    match started.1.1 with
    | none => (s2, effs)
    | some id =>
      let startedAt := jsOr started.1.2 env.nowIso
      let fullText := buildFinalTranscript
        { transcriptId := id, startedAt := startedAt
          threadId := args.finalThreadId
          allMsgs := args.finalMessagesSnapshot }
      (s2, effs ++ [ClientEffect.transcriptFinalizeRequest id fullText])

structure SummaryArgs where
  threadId : Option String
  messageCount : Nat
  userMessageCount : Nat
  durationSeconds : Option Int
  finishedReason : String
  deriving Repr

/-- `sendChatCompletionSummary`: post the structured payload to the embedding
parent window (a no-op when the page is not embedded; postMessage errors are
swallowed). -/
def sendChatCompletionSummary (env : ClientEnv) (a : SummaryArgs) :
    List ClientEffect :=
  let payload : SummaryPayload :=
    { type := "chat_complete", threadId := a.threadId
      messageCount := a.messageCount, userMessageCount := a.userMessageCount
      durationSeconds := a.durationSeconds, finishedReason := a.finishedReason
      completionTimestamp := env.nowIso }
  if env.embedded then [ClientEffect.postParentMessage payload] else []

structure EndCheckArgs where
  assistantText : String
  finalThreadId : Option String
  messageCount : Nat
  userMessageCount : Nat
  finalMessagesSnapshot : List ChatMsg
  deriving Repr

/-- `checkForInterviewEnd`: the end-of-session detector. A JS-truthy
`chatStartTimeRef.current` (non-null and non-zero) yields a rounded duration,
otherwise `null`. -/
def checkForInterviewEnd (env : ClientEnv) (a : EndCheckArgs)
    (s : ClientState) : ClientState × List ClientEffect :=
  if s.chatCompleted then (s, [])
  else if jsIncludes a.assistantText "END_INTERVIEW" then
    let s1 := { s with chatCompleted := true }
    let durationSeconds : Option Int :=
      match s1.chatStartTime with
      | some t =>
        if t ≠ 0 then some (jsRoundMsToSec ((env.endNow : Int) - (t : Int)))
        else none
      | none => none
    let s2 := { s1 with interviewStatus :=
      "Chat complete. You may return to the survey and press Next." }
    let summaryEffs := sendChatCompletionSummary env
      { threadId := a.finalThreadId, messageCount := a.messageCount
        userMessageCount := a.userMessageCount
        durationSeconds := durationSeconds
        finishedReason := "END_INTERVIEW" }
    let fin := finalizeTranscriptOnce env
      { finalMessagesSnapshot := a.finalMessagesSnapshot
        finalThreadId := a.finalThreadId } s2
    (fin.1, summaryEffs ++ fin.2)
  else (s, [])

/-- `sendMessage`: the turn-submission path, from the guard through the
response handling, the end-of-session check, and the `finally` release of
the in-flight flag. -/
def sendMessage (env : ClientEnv) (s : ClientState) :
    ClientState × List ClientEffect :=
  let trimmed := jsTrim s.input
  if trimmed = "" ∨ s.isLoading = true ∨ s.isTranscribing = true then (s, [])
  else
    let s := match s.chatStartTime with
      | some t => if t = 0 then { s with chatStartTime := some env.startNow } else s
      | none => { s with chatStartTime := some env.startNow }
    let currentMessages := s.messages
    let existingUserCount :=
      (currentMessages.filter (fun m => m.role == Role.user)).length
    let newUserMessageCount := existingUserCount + 1
    let userMsg : ChatMsg := { role := Role.user, text := trimmed }
    let nextMessagesAfterUser := currentMessages ++ [userMsg]
    let s := { s with messages := nextMessagesAfterUser, input := ""
                      isLoading := true }
    let payloadThreadId := match s.threadId with
      | some t => if jsStartsWith t "thread_" then some t else none
      | none => none
    let reqEff := ClientEffect.chatRequest trimmed payloadThreadId s.inputMode
    match env.chatOutcome with
    | ChatFetchOutcome.exception msg =>
      let errText := jsOr msg "Network error."
      ({ s with messages := s.messages ++ [{ role := Role.assistant, text := errText }]
                isLoading := false },
       [reqEff])
    | ChatFetchOutcome.httpError errMsg =>
      let errText := jsOr errMsg "Something went wrong calling the server."
      ({ s with messages := nextMessagesAfterUser ++
                  [{ role := Role.assistant, text := errText }]
                isLoading := false },
       [reqEff])
    | ChatFetchOutcome.success reply replyThreadId =>
      let assistantText := jsOr reply "No reply received."
      let assistantMsg : ChatMsg := { role := Role.assistant, text := assistantText }
      let nextMessagesAfterAssistant := nextMessagesAfterUser ++ [assistantMsg]
      let s := { s with messages := nextMessagesAfterAssistant
                        inputMode := InputMode.text }
      let threadOk := match replyThreadId with
        | some t => jsStartsWith t "thread_"
        | none => false
      let finalThreadId := if threadOk then replyThreadId else s.threadId
      let s := if threadOk then { s with threadId := replyThreadId } else s
      let totalMessagesAfter := currentMessages.length + 2
      let endRes := checkForInterviewEnd env
        { assistantText := assistantText, finalThreadId := finalThreadId
          messageCount := totalMessagesAfter
          userMessageCount := newUserMessageCount
          finalMessagesSnapshot := nextMessagesAfterAssistant } s
      ({ endRes.1 with isLoading := false }, [reqEff] ++ endRes.2)

end ClientPage

/-! ## Helper predicates and fixed test data used by the verification -/

/-- No suffix of `s` starts with `q`: a `replaceAll` scan for `q` never fires
anywhere in `s`. -/
def SuffixSafe (q s : List Char) : Prop := ∀ t, t <:+ s → ¬ q <+: t

/-- Every non-empty suffix of `p` disagrees with `q` at some position inside
both: no occurrence of `q` can start anywhere inside `p`. -/
def MismatchCond (q p : List Char) : Prop :=
  ∀ p', p' <:+ p → p' ≠ [] → ∃ n, n < q.length ∧ n < p'.length ∧ q[n]? ≠ p'[n]?

/-- Decidable check implying `MismatchCond` (quantifying over `p.tails`). -/
def mismatchCondB (q p : List Char) : Bool :=
  p.tails.all (fun p' => p'.isEmpty ||
    (List.range (min q.length p'.length)).any (fun n => decide (q[n]? ≠ p'[n]?)))

/-- The string contains none of `$`, `{`, `}`. -/
def braceDollarFree (s : String) : Bool :=
  s.data.all (fun c => (c != '$') && (c != '\x7b') && (c != '\x7d'))

/-- The five sequential `replaceAll` calls shared by the three placeholder
substitution helpers of the chat route. -/
def chain5 (s P1 P2 P3 P4 P5 v : String) : String :=
  jsReplaceAll (jsReplaceAll (jsReplaceAll (jsReplaceAll
    (jsReplaceAll s P1 v) P2 v) P3 v) P4 v) P5 v

/-- The placeholder forms handled by `applyTopBenefitSubstitution`, in the
order the route replaces them. -/
def benefitPatterns : List String :=
  ["$\x7bTopBenefit\x7d", "$\x7btopBenefit\x7d", "\x7bTopBenefit\x7d",
   "\x7btopBenefit\x7d", "$\x7be://Field/TopBenefit\x7d"]

/-- The placeholder forms handled by `applyTopRiskSubstitution`. -/
def riskPatterns : List String :=
  ["$\x7bTopRisk\x7d", "$\x7btopRisk\x7d", "\x7bTopRisk\x7d",
   "\x7btopRisk\x7d", "$\x7be://Field/TopRisk\x7d"]

/-- The placeholder forms handled by `applyParticipantIdSubstitution`. -/
def participantPatterns : List String :=
  ["$\x7bParticipantID\x7d", "$\x7bparticipantId\x7d", "\x7bParticipantID\x7d",
   "\x7bparticipantId\x7d", "$\x7be://Field/ParticipantID\x7d"]

/-- The string contains no carriage return, line feed or tab. -/
def noCRLFTab (s : String) : Bool :=
  s.data.all (fun c => (c != '\r') && (c != '\n') && (c != '\t'))

/-- An optional sanitized header value contains no CR/LF. -/
def optionSingleLine : Option String → Bool
  | none => true
  | some s => s.data.all (fun c => (c != '\r') && (c != '\n'))

/-- An optional sanitized header value contains a tab. -/
def optionContainsTab : Option String → Bool
  | none => false
  | some s => s.data.contains '\t'

/-- A header field value with an embedded tab, an embedded newline, and 305
characters: far beyond every length cap appearing in the repository. -/
def c7LongValue : String :=
  "a\tb\nc" ++ { data := List.replicate 300 'd' }

/-- Recognizer for outbound chat-turn requests of the client. -/
def ClientPage.isChatRequest : ClientPage.ClientEffect → Bool
  | ClientPage.ClientEffect.chatRequest _ _ _ => true
  | _ => false

/-- Recognizer for parent-window summary postings of the client. -/
def ClientPage.isPostParent : ClientPage.ClientEffect → Bool
  | ClientPage.ClientEffect.postParentMessage _ => true
  | _ => false

/-- Recognizer for the chat route's turn side effects: context injection,
transcript blob writes, adding the user message, starting a run. -/
def ChatApi.isTurnEffect : ChatApi.ServerEffect → Bool
  | ChatApi.ServerEffect.createContextMessage _ _ => true
  | ChatApi.ServerEffect.putBlob _ => true
  | ChatApi.ServerEffect.createUserMessage _ _ => true
  | ChatApi.ServerEffect.createRun _ => true
  | _ => false
/-! ## Theorems

### String-scanning lemmas for the placeholder substitutions (C10) -/

theorem replaceAllAux_zero (p r s : List Char) : replaceAllAux p r 0 s = s := rfl

theorem replaceAllAux_nilAny (p r : List Char) (fuel : Nat) :
    replaceAllAux p r fuel [] = [] := by
  cases fuel <;> rfl

theorem replaceAllAux_cons (p r : List Char) (fuel : Nat) (c : Char) (rest : List Char) :
    replaceAllAux p r (fuel + 1) (c :: rest) =
      if p.isPrefixOf (c :: rest) then
        r ++ replaceAllAux p r fuel ((c :: rest).drop p.length)
      else c :: replaceAllAux p r fuel rest := rfl

theorem scanId (q r : List Char) : ∀ fuel s, SuffixSafe q s → replaceAllAux q r fuel s = s := by
  intro fuel
  induction fuel with
  | zero => intro s _; rfl
  | succ fuel ih =>
    intro s hss
    cases s with
    | nil => rfl
    | cons c rest =>
      rw [replaceAllAux_cons]
      rw [if_neg]
      · rw [ih rest (fun t ht => hss t (ht.trans (List.suffix_cons c rest)))]
      · intro hpre
        exact hss (c :: rest) (List.suffix_refl _)
          ((List.isPrefixOf_iff_prefix).mp hpre)

theorem fuelIrrel (p r : List Char) (hp : p ≠ []) :
    ∀ (n : Nat) (s : List Char), s.length ≤ n → ∀ f₁ f₂, s.length ≤ f₁ → s.length ≤ f₂ →
      replaceAllAux p r f₁ s = replaceAllAux p r f₂ s := by
  intro n
  induction n with
  | zero =>
    intro s hs f₁ f₂ _ _
    have hnil : s = [] := by
      cases s with
      | nil => rfl
      | cons _ _ => simp at hs
    subst hnil
    rw [replaceAllAux_nilAny, replaceAllAux_nilAny]
  | succ n ih =>
    intro s hs f₁ f₂ h₁ h₂
    cases s with
    | nil => rw [replaceAllAux_nilAny, replaceAllAux_nilAny]
    | cons c rest =>
      have hlen : (c :: rest).length = rest.length + 1 := rfl
      rw [hlen] at hs h₁ h₂
      obtain ⟨g₁, rfl⟩ : ∃ g, f₁ = g + 1 := ⟨f₁ - 1, by omega⟩
      obtain ⟨g₂, rfl⟩ : ∃ g, f₂ = g + 1 := ⟨f₂ - 1, by omega⟩
      rw [replaceAllAux_cons, replaceAllAux_cons]
      have hplen : 1 ≤ p.length := by
        cases p with
        | nil => exact absurd rfl hp
        | cons _ _ => simp
      by_cases hcond : p.isPrefixOf (c :: rest)
      · rw [if_pos hcond, if_pos hcond]
        have hdlen : ((c :: rest).drop p.length).length ≤ rest.length := by
          simp only [List.length_drop, hlen]
          omega
        rw [ih _ (by omega) g₁ g₂ (by omega) (by omega)]
      · rw [if_neg hcond, if_neg hcond]
        rw [ih rest (by omega) g₁ g₂ (by omega) (by omega)]

theorem replaceStep (ph : Char) (pt r : List Char) :
    ∀ (a X : List Char) (fuel : Nat), (∀ c ∈ a, c ≠ ph) →
      (a ++ (ph :: pt) ++ X).length ≤ fuel →
      replaceAllAux (ph :: pt) r fuel (a ++ (ph :: pt) ++ X) =
        a ++ r ++ replaceAllAux (ph :: pt) r X.length X := by
  intro a
  induction a with
  | nil =>
    intro X fuel _ hfuel
    simp only [List.nil_append] at hfuel ⊢
    obtain ⟨g, rfl⟩ : ∃ g, fuel = g + 1 := ⟨fuel - 1, by simp at hfuel; omega⟩
    have hcons : (ph :: pt) ++ X = ph :: (pt ++ X) := rfl
    rw [hcons, replaceAllAux_cons, if_pos]
    · have hdrop : (ph :: (pt ++ X)).drop (ph :: pt).length = X := by
        rw [← hcons]
        exact List.drop_left _ _
      rw [hdrop]
      have hXlen : X.length ≤ g := by
        simp [hcons] at hfuel
        omega
      rw [fuelIrrel (ph :: pt) r (by simp) X.length X (le_refl _) g X.length hXlen (le_refl _)]
    · rw [← hcons]
      exact (List.isPrefixOf_iff_prefix).mpr (List.prefix_append _ _)
  | cons x a' ih =>
    intro X fuel hchars hfuel
    obtain ⟨g, rfl⟩ : ∃ g, fuel = g + 1 := ⟨fuel - 1, by simp at hfuel; omega⟩
    have hcons : (x :: a') ++ (ph :: pt) ++ X = x :: (a' ++ (ph :: pt) ++ X) := by simp
    rw [hcons, replaceAllAux_cons, if_neg]
    · rw [ih X g (fun c hc => hchars c (List.mem_cons_of_mem x hc))
          (by simp at hfuel ⊢; omega)]
      simp
    · intro hpre
      have := (List.isPrefixOf_iff_prefix).mp hpre
      obtain ⟨t₂, ht₂⟩ := this
      have hx : ph = x := by
        have := congrArg (fun l => l[0]?) ht₂
        simpa using this
      exact hchars x (List.mem_cons_self x a') hx.symm

theorem ssFlank (qh : Char) (qt : List Char) :
    ∀ (a X : List Char), (∀ c ∈ a, c ≠ qh) → SuffixSafe (qh :: qt) X →
      SuffixSafe (qh :: qt) (a ++ X) := by
  intro a
  induction a with
  | nil => intro X _ hX; simpa using hX
  | cons x a' ih =>
    intro X hchars hX t ht hpre
    rw [List.cons_append] at ht
    rcases (List.suffix_cons_iff).mp ht with rfl | ht2
    · obtain ⟨h1, _⟩ := (List.cons_prefix_cons).mp hpre
      exact hchars x (List.mem_cons_self x a') h1.symm
    · exact ih X (fun c hc => hchars c (List.mem_cons_of_mem x hc)) hX t ht2 hpre

/-- Every non-empty suffix of `p` disagrees with `q` at some position inside
both: no occurrence of `q` can start anywhere inside `p` (also not at its
head, hence also not run off its end). -/
theorem mismatchCondB_sound (q p : List Char) (h : mismatchCondB q p = true) :
    MismatchCond q p := by
  intro p' hsuf hne
  have hmem : p' ∈ p.tails := (List.mem_tails _ _).mpr hsuf
  have h2 := (List.all_eq_true.mp h) p' hmem
  rw [Bool.or_eq_true] at h2
  rcases h2 with h2 | h2
  · exact absurd (List.isEmpty_iff.mp h2) hne
  · obtain ⟨n, hn, hdec⟩ := List.any_eq_true.mp h2
    rw [List.mem_range] at hn
    exact ⟨n, by omega, by omega, of_decide_eq_true hdec⟩

theorem ssPat (q X : List Char) (hss : SuffixSafe q X) :
    ∀ p, MismatchCond q p → SuffixSafe q (p ++ X) := by
  intro p
  induction p with
  | nil => intro _; simpa using hss
  | cons y p₂ ih =>
    intro hm t ht hpre
    rw [List.cons_append] at ht
    rcases (List.suffix_cons_iff).mp ht with rfl | ht2
    · obtain ⟨n, hn1, hn2, hn3⟩ := hm (y :: p₂) (List.suffix_refl _) (by simp)
      obtain ⟨t₂, ht₂⟩ := hpre
      apply hn3
      have e1 : q[n]? = (q ++ t₂)[n]? := (List.getElem?_append_left hn1).symm
      rw [e1, ht₂]
      show (((y :: p₂) ++ X))[n]? = _
      exact List.getElem?_append_left hn2
    · exact ih (fun p' h1 h2 => hm p' (h1.trans (List.suffix_cons y p₂)) h2) t ht2 hpre

theorem ssOfChars (qh : Char) (qt l : List Char) (h : ∀ c ∈ l, c ≠ qh) :
    SuffixSafe (qh :: qt) l := by
  intro t ht hpre
  obtain ⟨t₂, rfl⟩ := hpre
  exact h qh (ht.subset (by simp)) rfl

theorem replaceTwoList (ph : Char) (pt r' L M Po : List Char)
    (hL : ∀ c ∈ L, c ≠ ph) (hM : ∀ c ∈ M, c ≠ ph) (hPo : ∀ c ∈ Po, c ≠ ph)
    (fuel : Nat)
    (hfuel : (L ++ (ph :: pt) ++ M ++ (ph :: pt) ++ Po).length ≤ fuel) :
    replaceAllAux (ph :: pt) r' fuel (L ++ (ph :: pt) ++ M ++ (ph :: pt) ++ Po) =
      L ++ r' ++ M ++ r' ++ Po := by
  have e1 : L ++ (ph :: pt) ++ M ++ (ph :: pt) ++ Po
      = L ++ (ph :: pt) ++ (M ++ (ph :: pt) ++ Po) := by
    simp [List.append_assoc]
  rw [e1] at hfuel ⊢
  rw [replaceStep ph pt r' L (M ++ (ph :: pt) ++ Po) fuel hL hfuel]
  rw [replaceStep ph pt r' M Po _ hM (le_refl _)]
  rw [scanId _ _ _ _ (ssOfChars ph pt Po hPo)]
  simp [List.append_assoc]

theorem jsReplaceAll_id (s p r : String) (h : SuffixSafe p.data s.data) :
    jsReplaceAll s p r = s := by
  have hp : p.data ≠ [] := by
    intro he
    exact h s.data (List.suffix_refl _) (by rw [he]; exact List.nil_prefix)
  unfold jsReplaceAll
  rw [if_neg hp]
  rw [scanId p.data r.data _ _ h]

theorem jsReplaceAll_two (p r pre mid post : String) (ph : Char) (pt : List Char)
    (hph : p.data = ph :: pt)
    (hpre : ∀ c ∈ pre.data, c ≠ ph) (hmid : ∀ c ∈ mid.data, c ≠ ph)
    (hpost : ∀ c ∈ post.data, c ≠ ph) :
    jsReplaceAll (pre ++ p ++ mid ++ p ++ post) p r = pre ++ r ++ mid ++ r ++ post := by
  have hp : p.data ≠ [] := by rw [hph]; simp
  unfold jsReplaceAll
  rw [if_neg hp]
  have hdata : (pre ++ p ++ mid ++ p ++ post).data
      = pre.data ++ p.data ++ mid.data ++ p.data ++ post.data := by
    simp [String.data_append, List.append_assoc]
  rw [hdata, hph]
  rw [replaceTwoList ph pt r.data pre.data mid.data post.data hpre hmid hpost _
    (le_refl _)]
  show String.mk _ = _
  have : (pre ++ r ++ mid ++ r ++ post).data
      = pre.data ++ r.data ++ mid.data ++ r.data ++ post.data := by
    simp [String.data_append, List.append_assoc]
  rw [← this]

theorem bdf_chars (s : String) (h : braceDollarFree s = true) :
    ∀ c ∈ s.data, c ≠ '$' ∧ c ≠ '\x7b' ∧ c ≠ '\x7d' := by
  intro c hc
  have h2 := List.all_eq_true.mp h c hc
  simp only [Bool.and_eq_true, bne_iff_ne] at h2
  exact ⟨h2.1.1, h2.1.2, h2.2⟩

theorem bdf_ne (s : String) (h : braceDollarFree s = true) (qh : Char)
    (hqh : qh = '$' ∨ qh = '\x7b') : ∀ c ∈ s.data, c ≠ qh := by
  intro c hc
  rcases hqh with rfl | rfl
  · exact (bdf_chars s h c hc).1
  · exact (bdf_chars s h c hc).2.1

theorem ssStr5_pat (q pttn pre mid post : String) (qh : Char) (qt : List Char)
    (hq : q.data = qh :: qt) (hqh : qh = '$' ∨ qh = '\x7b')
    (hpre : braceDollarFree pre = true) (hmid : braceDollarFree mid = true)
    (hpost : braceDollarFree post = true)
    (hm : mismatchCondB q.data pttn.data = true) :
    SuffixSafe q.data (pre ++ pttn ++ mid ++ pttn ++ post).data := by
  have hdata : (pre ++ pttn ++ mid ++ pttn ++ post).data
      = pre.data ++ (pttn.data ++ (mid.data ++ (pttn.data ++ post.data))) := by
    simp [String.data_append, List.append_assoc]
  rw [hdata, hq]
  have hm' := mismatchCondB_sound _ _ hm
  rw [hq] at hm'
  exact ssFlank qh qt pre.data _ (bdf_ne pre hpre qh hqh)
    (ssPat _ _ (ssFlank qh qt mid.data _ (bdf_ne mid hmid qh hqh)
      (ssPat _ _ (ssOfChars qh qt post.data (bdf_ne post hpost qh hqh)) pttn.data hm'))
      pttn.data hm')

theorem ssStr5_flank (q v pre mid post : String) (qh : Char) (qt : List Char)
    (hq : q.data = qh :: qt) (hqh : qh = '$' ∨ qh = '\x7b')
    (hpre : braceDollarFree pre = true) (hmid : braceDollarFree mid = true)
    (hpost : braceDollarFree post = true) (hv : braceDollarFree v = true) :
    SuffixSafe q.data (pre ++ v ++ mid ++ v ++ post).data := by
  have hdata : (pre ++ v ++ mid ++ v ++ post).data
      = pre.data ++ (v.data ++ (mid.data ++ (v.data ++ post.data))) := by
    simp [String.data_append, List.append_assoc]
  rw [hdata, hq]
  exact ssFlank qh qt pre.data _ (bdf_ne pre hpre qh hqh)
    (ssFlank qh qt v.data _ (bdf_ne v hv qh hqh)
      (ssFlank qh qt mid.data _ (bdf_ne mid hmid qh hqh)
        (ssFlank qh qt v.data _ (bdf_ne v hv qh hqh)
          (ssOfChars qh qt post.data (bdf_ne post hpost qh hqh)))))

/-- The five sequential `replaceAll` calls shared by the three substitution
helpers. -/
theorem jsReplaceAll_two' (p v pre mid post : String) (ph : Char)
    (hph : p.data = ph :: p.data.tail) (hqh : ph = '$' ∨ ph = '\x7b')
    (hpre : braceDollarFree pre = true) (hmid : braceDollarFree mid = true)
    (hpost : braceDollarFree post = true) :
    jsReplaceAll (pre ++ p ++ mid ++ p ++ post) p v = pre ++ v ++ mid ++ v ++ post :=
  jsReplaceAll_two p v pre mid post ph p.data.tail hph
    (bdf_ne pre hpre ph hqh) (bdf_ne mid hmid ph hqh) (bdf_ne post hpost ph hqh)

theorem chain5_repl1 (P1 P2 P3 P4 P5 v pre mid post : String) (ph : Char)
    (hph : P1.data = ph :: P1.data.tail) (hqh : ph = '$' ∨ ph = '\x7b')
    (hpre : braceDollarFree pre = true) (hmid : braceDollarFree mid = true)
    (hpost : braceDollarFree post = true)
    (h2 : SuffixSafe P2.data (pre ++ v ++ mid ++ v ++ post).data)
    (h3 : SuffixSafe P3.data (pre ++ v ++ mid ++ v ++ post).data)
    (h4 : SuffixSafe P4.data (pre ++ v ++ mid ++ v ++ post).data)
    (h5 : SuffixSafe P5.data (pre ++ v ++ mid ++ v ++ post).data) :
    chain5 (pre ++ P1 ++ mid ++ P1 ++ post) P1 P2 P3 P4 P5 v
      = pre ++ v ++ mid ++ v ++ post := by
  unfold chain5
  rw [jsReplaceAll_two' P1 v pre mid post ph hph hqh hpre hmid hpost,
      jsReplaceAll_id _ P2 v h2, jsReplaceAll_id _ P3 v h3,
      jsReplaceAll_id _ P4 v h4, jsReplaceAll_id _ P5 v h5]

theorem chain5_repl2 (P1 P2 P3 P4 P5 v pre mid post : String) (ph : Char)
    (hph : P2.data = ph :: P2.data.tail) (hqh : ph = '$' ∨ ph = '\x7b')
    (hpre : braceDollarFree pre = true) (hmid : braceDollarFree mid = true)
    (hpost : braceDollarFree post = true)
    (h1 : SuffixSafe P1.data (pre ++ P2 ++ mid ++ P2 ++ post).data)
    (h3 : SuffixSafe P3.data (pre ++ v ++ mid ++ v ++ post).data)
    (h4 : SuffixSafe P4.data (pre ++ v ++ mid ++ v ++ post).data)
    (h5 : SuffixSafe P5.data (pre ++ v ++ mid ++ v ++ post).data) :
    chain5 (pre ++ P2 ++ mid ++ P2 ++ post) P1 P2 P3 P4 P5 v
      = pre ++ v ++ mid ++ v ++ post := by
  unfold chain5
  rw [jsReplaceAll_id _ P1 v h1,
      jsReplaceAll_two' P2 v pre mid post ph hph hqh hpre hmid hpost,
      jsReplaceAll_id _ P3 v h3, jsReplaceAll_id _ P4 v h4,
      jsReplaceAll_id _ P5 v h5]

theorem chain5_repl3 (P1 P2 P3 P4 P5 v pre mid post : String) (ph : Char)
    (hph : P3.data = ph :: P3.data.tail) (hqh : ph = '$' ∨ ph = '\x7b')
    (hpre : braceDollarFree pre = true) (hmid : braceDollarFree mid = true)
    (hpost : braceDollarFree post = true)
    (h1 : SuffixSafe P1.data (pre ++ P3 ++ mid ++ P3 ++ post).data)
    (h2 : SuffixSafe P2.data (pre ++ P3 ++ mid ++ P3 ++ post).data)
    (h4 : SuffixSafe P4.data (pre ++ v ++ mid ++ v ++ post).data)
    (h5 : SuffixSafe P5.data (pre ++ v ++ mid ++ v ++ post).data) :
    chain5 (pre ++ P3 ++ mid ++ P3 ++ post) P1 P2 P3 P4 P5 v
      = pre ++ v ++ mid ++ v ++ post := by
  unfold chain5
  rw [jsReplaceAll_id _ P1 v h1, jsReplaceAll_id _ P2 v h2,
      jsReplaceAll_two' P3 v pre mid post ph hph hqh hpre hmid hpost,
      jsReplaceAll_id _ P4 v h4, jsReplaceAll_id _ P5 v h5]

theorem chain5_repl4 (P1 P2 P3 P4 P5 v pre mid post : String) (ph : Char)
    (hph : P4.data = ph :: P4.data.tail) (hqh : ph = '$' ∨ ph = '\x7b')
    (hpre : braceDollarFree pre = true) (hmid : braceDollarFree mid = true)
    (hpost : braceDollarFree post = true)
    (h1 : SuffixSafe P1.data (pre ++ P4 ++ mid ++ P4 ++ post).data)
    (h2 : SuffixSafe P2.data (pre ++ P4 ++ mid ++ P4 ++ post).data)
    (h3 : SuffixSafe P3.data (pre ++ P4 ++ mid ++ P4 ++ post).data)
    (h5 : SuffixSafe P5.data (pre ++ v ++ mid ++ v ++ post).data) :
    chain5 (pre ++ P4 ++ mid ++ P4 ++ post) P1 P2 P3 P4 P5 v
      = pre ++ v ++ mid ++ v ++ post := by
  unfold chain5
  rw [jsReplaceAll_id _ P1 v h1, jsReplaceAll_id _ P2 v h2,
      jsReplaceAll_id _ P3 v h3,
      jsReplaceAll_two' P4 v pre mid post ph hph hqh hpre hmid hpost,
      jsReplaceAll_id _ P5 v h5]

theorem chain5_repl5 (P1 P2 P3 P4 P5 v pre mid post : String) (ph : Char)
    (hph : P5.data = ph :: P5.data.tail) (hqh : ph = '$' ∨ ph = '\x7b')
    (hpre : braceDollarFree pre = true) (hmid : braceDollarFree mid = true)
    (hpost : braceDollarFree post = true)
    (h1 : SuffixSafe P1.data (pre ++ P5 ++ mid ++ P5 ++ post).data)
    (h2 : SuffixSafe P2.data (pre ++ P5 ++ mid ++ P5 ++ post).data)
    (h3 : SuffixSafe P3.data (pre ++ P5 ++ mid ++ P5 ++ post).data)
    (h4 : SuffixSafe P4.data (pre ++ P5 ++ mid ++ P5 ++ post).data) :
    chain5 (pre ++ P5 ++ mid ++ P5 ++ post) P1 P2 P3 P4 P5 v
      = pre ++ v ++ mid ++ v ++ post := by
  unfold chain5
  rw [jsReplaceAll_id _ P1 v h1, jsReplaceAll_id _ P2 v h2,
      jsReplaceAll_id _ P3 v h3, jsReplaceAll_id _ P4 v h4,
      jsReplaceAll_two' P5 v pre mid post ph hph hqh hpre hmid hpost]

theorem str_eq_empty_iff (p : String) : p = "" ↔ p.data = [] := by
  constructor
  · intro h; rw [h]
  · intro h
    cases p with
    | mk d => cases h; rfl

theorem append5_ne_empty (pre p mid post : String) (hp : p ≠ "") :
    pre ++ p ++ mid ++ p ++ post ≠ "" := by
  intro h
  apply hp
  rw [str_eq_empty_iff] at h ⊢
  simp [String.data_append] at h
  exact h.2.1

theorem applyTopBenefit_eq_chain5 (reply v : String) (hr : reply ≠ "") (hv : v ≠ "") :
    ChatApi.applyTopBenefitSubstitution reply v
      = chain5 reply "$\x7bTopBenefit\x7d" "$\x7btopBenefit\x7d"
          "\x7bTopBenefit\x7d" "\x7btopBenefit\x7d"
          "$\x7be://Field/TopBenefit\x7d" v := by
  unfold ChatApi.applyTopBenefitSubstitution chain5
  rw [if_neg hr, if_neg hv]

set_option maxRecDepth 8000 in
theorem benefit_subst (v pre mid post : String) (hv : v ≠ "")
    (hbv : braceDollarFree v = true) (hbpre : braceDollarFree pre = true)
    (hbmid : braceDollarFree mid = true) (hbpost : braceDollarFree post = true) :
    ∀ p ∈ benefitPatterns,
      ChatApi.applyTopBenefitSubstitution (pre ++ p ++ mid ++ p ++ post) v
        = pre ++ v ++ mid ++ v ++ post := by
  intro p hp
  simp only [benefitPatterns, List.mem_cons, List.mem_singleton,
    List.not_mem_nil, or_false] at hp
  rcases hp with rfl | rfl | rfl | rfl | rfl
  · rw [applyTopBenefit_eq_chain5 _ _ (append5_ne_empty _ _ _ _ (by decide)) hv]
    exact chain5_repl1 _ _ _ _ _ v pre mid post '$' (by decide) (Or.inl rfl)
      hbpre hbmid hbpost
      (ssStr5_flank _ v pre mid post '$' ("\x7btopBenefit\x7d".data) (by decide) (Or.inl rfl)
        hbpre hbmid hbpost hbv)
      (ssStr5_flank _ v pre mid post '\x7b' ("TopBenefit\x7d".data) (by decide) (Or.inr rfl)
        hbpre hbmid hbpost hbv)
      (ssStr5_flank _ v pre mid post '\x7b' ("topBenefit\x7d".data) (by decide) (Or.inr rfl)
        hbpre hbmid hbpost hbv)
      (ssStr5_flank _ v pre mid post '$' ("\x7be://Field/TopBenefit\x7d".data) (by decide) (Or.inl rfl)
        hbpre hbmid hbpost hbv)
  · rw [applyTopBenefit_eq_chain5 _ _ (append5_ne_empty _ _ _ _ (by decide)) hv]
    exact chain5_repl2 _ _ _ _ _ v pre mid post '$' (by decide) (Or.inl rfl)
      hbpre hbmid hbpost
      (ssStr5_pat _ _ pre mid post '$' ("\x7bTopBenefit\x7d".data) (by decide) (Or.inl rfl)
        hbpre hbmid hbpost (by decide))
      (ssStr5_flank _ v pre mid post '\x7b' ("TopBenefit\x7d".data) (by decide) (Or.inr rfl)
        hbpre hbmid hbpost hbv)
      (ssStr5_flank _ v pre mid post '\x7b' ("topBenefit\x7d".data) (by decide) (Or.inr rfl)
        hbpre hbmid hbpost hbv)
      (ssStr5_flank _ v pre mid post '$' ("\x7be://Field/TopBenefit\x7d".data) (by decide) (Or.inl rfl)
        hbpre hbmid hbpost hbv)
  · rw [applyTopBenefit_eq_chain5 _ _ (append5_ne_empty _ _ _ _ (by decide)) hv]
    exact chain5_repl3 _ _ _ _ _ v pre mid post '\x7b' (by decide) (Or.inr rfl)
      hbpre hbmid hbpost
      (ssStr5_pat _ _ pre mid post '$' ("\x7bTopBenefit\x7d".data) (by decide) (Or.inl rfl)
        hbpre hbmid hbpost (by decide))
      (ssStr5_pat _ _ pre mid post '$' ("\x7btopBenefit\x7d".data) (by decide) (Or.inl rfl)
        hbpre hbmid hbpost (by decide))
      (ssStr5_flank _ v pre mid post '\x7b' ("topBenefit\x7d".data) (by decide) (Or.inr rfl)
        hbpre hbmid hbpost hbv)
      (ssStr5_flank _ v pre mid post '$' ("\x7be://Field/TopBenefit\x7d".data) (by decide) (Or.inl rfl)
        hbpre hbmid hbpost hbv)
  · rw [applyTopBenefit_eq_chain5 _ _ (append5_ne_empty _ _ _ _ (by decide)) hv]
    exact chain5_repl4 _ _ _ _ _ v pre mid post '\x7b' (by decide) (Or.inr rfl)
      hbpre hbmid hbpost
      (ssStr5_pat _ _ pre mid post '$' ("\x7bTopBenefit\x7d".data) (by decide) (Or.inl rfl)
        hbpre hbmid hbpost (by decide))
      (ssStr5_pat _ _ pre mid post '$' ("\x7btopBenefit\x7d".data) (by decide) (Or.inl rfl)
        hbpre hbmid hbpost (by decide))
      (ssStr5_pat _ _ pre mid post '\x7b' ("TopBenefit\x7d".data) (by decide) (Or.inr rfl)
        hbpre hbmid hbpost (by decide))
      (ssStr5_flank _ v pre mid post '$' ("\x7be://Field/TopBenefit\x7d".data) (by decide) (Or.inl rfl)
        hbpre hbmid hbpost hbv)
  · rw [applyTopBenefit_eq_chain5 _ _ (append5_ne_empty _ _ _ _ (by decide)) hv]
    exact chain5_repl5 _ _ _ _ _ v pre mid post '$' (by decide) (Or.inl rfl)
      hbpre hbmid hbpost
      (ssStr5_pat _ _ pre mid post '$' ("\x7bTopBenefit\x7d".data) (by decide) (Or.inl rfl)
        hbpre hbmid hbpost (by decide))
      (ssStr5_pat _ _ pre mid post '$' ("\x7btopBenefit\x7d".data) (by decide) (Or.inl rfl)
        hbpre hbmid hbpost (by decide))
      (ssStr5_pat _ _ pre mid post '\x7b' ("TopBenefit\x7d".data) (by decide) (Or.inr rfl)
        hbpre hbmid hbpost (by decide))
      (ssStr5_pat _ _ pre mid post '\x7b' ("topBenefit\x7d".data) (by decide) (Or.inr rfl)
        hbpre hbmid hbpost (by decide))

theorem applyTopRisk_eq_chain5 (reply v : String) (hr : reply ≠ "") (hv : v ≠ "") :
    ChatApi.applyTopRiskSubstitution reply v
      = chain5 reply "$\x7bTopRisk\x7d" "$\x7btopRisk\x7d"
          "\x7bTopRisk\x7d" "\x7btopRisk\x7d"
          "$\x7be://Field/TopRisk\x7d" v := by
  unfold ChatApi.applyTopRiskSubstitution chain5
  rw [if_neg hr, if_neg hv]

set_option maxRecDepth 8000 in
theorem risk_subst (v pre mid post : String) (hv : v ≠ "")
    (hbv : braceDollarFree v = true) (hbpre : braceDollarFree pre = true)
    (hbmid : braceDollarFree mid = true) (hbpost : braceDollarFree post = true) :
    ∀ p ∈ riskPatterns,
      ChatApi.applyTopRiskSubstitution (pre ++ p ++ mid ++ p ++ post) v
        = pre ++ v ++ mid ++ v ++ post := by
  intro p hp
  simp only [riskPatterns, List.mem_cons, List.mem_singleton,
    List.not_mem_nil, or_false] at hp
  rcases hp with rfl | rfl | rfl | rfl | rfl
  · rw [applyTopRisk_eq_chain5 _ _ (append5_ne_empty _ _ _ _ (by decide)) hv]
    exact chain5_repl1 _ _ _ _ _ v pre mid post '$' (by decide) (Or.inl rfl)
      hbpre hbmid hbpost
      (ssStr5_flank _ v pre mid post '$' ("\x7btopRisk\x7d".data) (by decide) (Or.inl rfl)
        hbpre hbmid hbpost hbv)
      (ssStr5_flank _ v pre mid post '\x7b' ("TopRisk\x7d".data) (by decide) (Or.inr rfl)
        hbpre hbmid hbpost hbv)
      (ssStr5_flank _ v pre mid post '\x7b' ("topRisk\x7d".data) (by decide) (Or.inr rfl)
        hbpre hbmid hbpost hbv)
      (ssStr5_flank _ v pre mid post '$' ("\x7be://Field/TopRisk\x7d".data) (by decide) (Or.inl rfl)
        hbpre hbmid hbpost hbv)
  · rw [applyTopRisk_eq_chain5 _ _ (append5_ne_empty _ _ _ _ (by decide)) hv]
    exact chain5_repl2 _ _ _ _ _ v pre mid post '$' (by decide) (Or.inl rfl)
      hbpre hbmid hbpost
      (ssStr5_pat _ _ pre mid post '$' ("\x7bTopRisk\x7d".data) (by decide) (Or.inl rfl)
        hbpre hbmid hbpost (by decide))
      (ssStr5_flank _ v pre mid post '\x7b' ("TopRisk\x7d".data) (by decide) (Or.inr rfl)
        hbpre hbmid hbpost hbv)
      (ssStr5_flank _ v pre mid post '\x7b' ("topRisk\x7d".data) (by decide) (Or.inr rfl)
        hbpre hbmid hbpost hbv)
      (ssStr5_flank _ v pre mid post '$' ("\x7be://Field/TopRisk\x7d".data) (by decide) (Or.inl rfl)
        hbpre hbmid hbpost hbv)
  · rw [applyTopRisk_eq_chain5 _ _ (append5_ne_empty _ _ _ _ (by decide)) hv]
    exact chain5_repl3 _ _ _ _ _ v pre mid post '\x7b' (by decide) (Or.inr rfl)
      hbpre hbmid hbpost
      (ssStr5_pat _ _ pre mid post '$' ("\x7bTopRisk\x7d".data) (by decide) (Or.inl rfl)
        hbpre hbmid hbpost (by decide))
      (ssStr5_pat _ _ pre mid post '$' ("\x7btopRisk\x7d".data) (by decide) (Or.inl rfl)
        hbpre hbmid hbpost (by decide))
      (ssStr5_flank _ v pre mid post '\x7b' ("topRisk\x7d".data) (by decide) (Or.inr rfl)
        hbpre hbmid hbpost hbv)
      (ssStr5_flank _ v pre mid post '$' ("\x7be://Field/TopRisk\x7d".data) (by decide) (Or.inl rfl)
        hbpre hbmid hbpost hbv)
  · rw [applyTopRisk_eq_chain5 _ _ (append5_ne_empty _ _ _ _ (by decide)) hv]
    exact chain5_repl4 _ _ _ _ _ v pre mid post '\x7b' (by decide) (Or.inr rfl)
      hbpre hbmid hbpost
      (ssStr5_pat _ _ pre mid post '$' ("\x7bTopRisk\x7d".data) (by decide) (Or.inl rfl)
        hbpre hbmid hbpost (by decide))
      (ssStr5_pat _ _ pre mid post '$' ("\x7btopRisk\x7d".data) (by decide) (Or.inl rfl)
        hbpre hbmid hbpost (by decide))
      (ssStr5_pat _ _ pre mid post '\x7b' ("TopRisk\x7d".data) (by decide) (Or.inr rfl)
        hbpre hbmid hbpost (by decide))
      (ssStr5_flank _ v pre mid post '$' ("\x7be://Field/TopRisk\x7d".data) (by decide) (Or.inl rfl)
        hbpre hbmid hbpost hbv)
  · rw [applyTopRisk_eq_chain5 _ _ (append5_ne_empty _ _ _ _ (by decide)) hv]
    exact chain5_repl5 _ _ _ _ _ v pre mid post '$' (by decide) (Or.inl rfl)
      hbpre hbmid hbpost
      (ssStr5_pat _ _ pre mid post '$' ("\x7bTopRisk\x7d".data) (by decide) (Or.inl rfl)
        hbpre hbmid hbpost (by decide))
      (ssStr5_pat _ _ pre mid post '$' ("\x7btopRisk\x7d".data) (by decide) (Or.inl rfl)
        hbpre hbmid hbpost (by decide))
      (ssStr5_pat _ _ pre mid post '\x7b' ("TopRisk\x7d".data) (by decide) (Or.inr rfl)
        hbpre hbmid hbpost (by decide))
      (ssStr5_pat _ _ pre mid post '\x7b' ("topRisk\x7d".data) (by decide) (Or.inr rfl)
        hbpre hbmid hbpost (by decide))

theorem applyParticipantId_eq_chain5 (reply v : String) (hr : reply ≠ "") (hv : v ≠ "") :
    ChatApi.applyParticipantIdSubstitution reply v
      = chain5 reply "$\x7bParticipantID\x7d" "$\x7bparticipantId\x7d"
          "\x7bParticipantID\x7d" "\x7bparticipantId\x7d"
          "$\x7be://Field/ParticipantID\x7d" v := by
  unfold ChatApi.applyParticipantIdSubstitution chain5
  rw [if_neg hr, if_neg hv]

set_option maxRecDepth 8000 in
theorem participant_subst (v pre mid post : String) (hv : v ≠ "")
    (hbv : braceDollarFree v = true) (hbpre : braceDollarFree pre = true)
    (hbmid : braceDollarFree mid = true) (hbpost : braceDollarFree post = true) :
    ∀ p ∈ participantPatterns,
      ChatApi.applyParticipantIdSubstitution (pre ++ p ++ mid ++ p ++ post) v
        = pre ++ v ++ mid ++ v ++ post := by
  intro p hp
  simp only [participantPatterns, List.mem_cons, List.mem_singleton,
    List.not_mem_nil, or_false] at hp
  rcases hp with rfl | rfl | rfl | rfl | rfl
  · rw [applyParticipantId_eq_chain5 _ _ (append5_ne_empty _ _ _ _ (by decide)) hv]
    exact chain5_repl1 _ _ _ _ _ v pre mid post '$' (by decide) (Or.inl rfl)
      hbpre hbmid hbpost
      (ssStr5_flank _ v pre mid post '$' ("\x7bparticipantId\x7d".data) (by decide) (Or.inl rfl)
        hbpre hbmid hbpost hbv)
      (ssStr5_flank _ v pre mid post '\x7b' ("ParticipantID\x7d".data) (by decide) (Or.inr rfl)
        hbpre hbmid hbpost hbv)
      (ssStr5_flank _ v pre mid post '\x7b' ("participantId\x7d".data) (by decide) (Or.inr rfl)
        hbpre hbmid hbpost hbv)
      (ssStr5_flank _ v pre mid post '$' ("\x7be://Field/ParticipantID\x7d".data) (by decide) (Or.inl rfl)
        hbpre hbmid hbpost hbv)
  · rw [applyParticipantId_eq_chain5 _ _ (append5_ne_empty _ _ _ _ (by decide)) hv]
    exact chain5_repl2 _ _ _ _ _ v pre mid post '$' (by decide) (Or.inl rfl)
      hbpre hbmid hbpost
      (ssStr5_pat _ _ pre mid post '$' ("\x7bParticipantID\x7d".data) (by decide) (Or.inl rfl)
        hbpre hbmid hbpost (by decide))
      (ssStr5_flank _ v pre mid post '\x7b' ("ParticipantID\x7d".data) (by decide) (Or.inr rfl)
        hbpre hbmid hbpost hbv)
      (ssStr5_flank _ v pre mid post '\x7b' ("participantId\x7d".data) (by decide) (Or.inr rfl)
        hbpre hbmid hbpost hbv)
      (ssStr5_flank _ v pre mid post '$' ("\x7be://Field/ParticipantID\x7d".data) (by decide) (Or.inl rfl)
        hbpre hbmid hbpost hbv)
  · rw [applyParticipantId_eq_chain5 _ _ (append5_ne_empty _ _ _ _ (by decide)) hv]
    exact chain5_repl3 _ _ _ _ _ v pre mid post '\x7b' (by decide) (Or.inr rfl)
      hbpre hbmid hbpost
      (ssStr5_pat _ _ pre mid post '$' ("\x7bParticipantID\x7d".data) (by decide) (Or.inl rfl)
        hbpre hbmid hbpost (by decide))
      (ssStr5_pat _ _ pre mid post '$' ("\x7bparticipantId\x7d".data) (by decide) (Or.inl rfl)
        hbpre hbmid hbpost (by decide))
      (ssStr5_flank _ v pre mid post '\x7b' ("participantId\x7d".data) (by decide) (Or.inr rfl)
        hbpre hbmid hbpost hbv)
      (ssStr5_flank _ v pre mid post '$' ("\x7be://Field/ParticipantID\x7d".data) (by decide) (Or.inl rfl)
        hbpre hbmid hbpost hbv)
  · rw [applyParticipantId_eq_chain5 _ _ (append5_ne_empty _ _ _ _ (by decide)) hv]
    exact chain5_repl4 _ _ _ _ _ v pre mid post '\x7b' (by decide) (Or.inr rfl)
      hbpre hbmid hbpost
      (ssStr5_pat _ _ pre mid post '$' ("\x7bParticipantID\x7d".data) (by decide) (Or.inl rfl)
        hbpre hbmid hbpost (by decide))
      (ssStr5_pat _ _ pre mid post '$' ("\x7bparticipantId\x7d".data) (by decide) (Or.inl rfl)
        hbpre hbmid hbpost (by decide))
      (ssStr5_pat _ _ pre mid post '\x7b' ("ParticipantID\x7d".data) (by decide) (Or.inr rfl)
        hbpre hbmid hbpost (by decide))
      (ssStr5_flank _ v pre mid post '$' ("\x7be://Field/ParticipantID\x7d".data) (by decide) (Or.inl rfl)
        hbpre hbmid hbpost hbv)
  · rw [applyParticipantId_eq_chain5 _ _ (append5_ne_empty _ _ _ _ (by decide)) hv]
    exact chain5_repl5 _ _ _ _ _ v pre mid post '$' (by decide) (Or.inl rfl)
      hbpre hbmid hbpost
      (ssStr5_pat _ _ pre mid post '$' ("\x7bParticipantID\x7d".data) (by decide) (Or.inl rfl)
        hbpre hbmid hbpost (by decide))
      (ssStr5_pat _ _ pre mid post '$' ("\x7bparticipantId\x7d".data) (by decide) (Or.inl rfl)
        hbpre hbmid hbpost (by decide))
      (ssStr5_pat _ _ pre mid post '\x7b' ("ParticipantID\x7d".data) (by decide) (Or.inr rfl)
        hbpre hbmid hbpost (by decide))
      (ssStr5_pat _ _ pre mid post '\x7b' ("participantId\x7d".data) (by decide) (Or.inr rfl)
        hbpre hbmid hbpost (by decide))


/-! ### Client-side helper lemmas (turn guard, latch, summary effects) -/

namespace ClientPage

theorem countP_chatRequest_summary (env : ClientEnv) (a : SummaryArgs) :
    (sendChatCompletionSummary env a).countP isChatRequest = 0 := by
  unfold sendChatCompletionSummary
  split <;> simp [isChatRequest]

theorem countP_chatRequest_ensure (env : ClientEnv) (s : ClientState) :
    (ensureTranscriptStarted env s).2.2.countP isChatRequest = 0 := by
  unfold ensureTranscriptStarted
  rcases s.transcriptId with _ | id
  · rcases env.startOutcome with ⟨tid, sa⟩ | _ | _ <;> try simp [isChatRequest]
    rcases tid with _ | v <;> simp [isChatRequest]
    split <;> simp [isChatRequest]
  · simp

theorem countP_chatRequest_finalize (env : ClientEnv) (args : FinalizeArgs)
    (s : ClientState) :
    (finalizeTranscriptOnce env args s).2.countP isChatRequest = 0 := by
  unfold finalizeTranscriptOnce
  split
  · simp
  · cases h : (ensureTranscriptStarted env { s with transcriptFinalized := true }).1.1
    · simp [h, countP_chatRequest_ensure]
    · simp [h, List.countP_append, countP_chatRequest_ensure, isChatRequest]

theorem countP_chatRequest_check (env : ClientEnv) (a : EndCheckArgs)
    (s : ClientState) :
    (checkForInterviewEnd env a s).2.countP isChatRequest = 0 := by
  unfold checkForInterviewEnd
  split
  · simp
  · split
    · simp [List.countP_append, countP_chatRequest_summary, countP_chatRequest_finalize]
    · simp

theorem ensure_chatCompleted (env : ClientEnv) (s : ClientState) :
    (ensureTranscriptStarted env s).2.1.chatCompleted = s.chatCompleted := by
  unfold ensureTranscriptStarted
  rcases s.transcriptId with _ | id
  · rcases env.startOutcome with ⟨tid, sa⟩ | _ | _ <;> try simp
    rcases tid with _ | v <;> simp
    split <;> simp
  · simp

theorem ensure_transcriptFinalized (env : ClientEnv) (s : ClientState) :
    (ensureTranscriptStarted env s).2.1.transcriptFinalized
      = s.transcriptFinalized := by
  unfold ensureTranscriptStarted
  rcases s.transcriptId with _ | id
  · rcases env.startOutcome with ⟨tid, sa⟩ | _ | _ <;> try simp
    rcases tid with _ | v <;> simp
    split <;> simp
  · simp

theorem finalize_chatCompleted (env : ClientEnv) (args : FinalizeArgs)
    (s : ClientState) :
    (finalizeTranscriptOnce env args s).1.chatCompleted = s.chatCompleted := by
  unfold finalizeTranscriptOnce
  split
  · simp
  · cases h : (ensureTranscriptStarted env { s with transcriptFinalized := true }).1.1 <;>
      simp [h]
    all_goals
      have := ensure_chatCompleted env { s with transcriptFinalized := true }
      simp_all

theorem finalize_latched (env : ClientEnv) (args : FinalizeArgs) (s : ClientState) :
    (finalizeTranscriptOnce env args s).1.transcriptFinalized = true := by
  unfold finalizeTranscriptOnce
  split
  · simp_all
  · cases h : (ensureTranscriptStarted env { s with transcriptFinalized := true }).1.1 <;>
      simp [h]
    all_goals
      have := ensure_transcriptFinalized env { s with transcriptFinalized := true }
      simp_all

theorem finalize_noop (env : ClientEnv) (args : FinalizeArgs) (s : ClientState)
    (h : s.transcriptFinalized = true) :
    finalizeTranscriptOnce env args s = (s, []) := by
  unfold finalizeTranscriptOnce
  rw [if_pos h]

theorem check_noop (env : ClientEnv) (a : EndCheckArgs) (s : ClientState)
    (h : s.chatCompleted = true) :
    checkForInterviewEnd env a s = (s, []) := by
  unfold checkForInterviewEnd
  rw [if_pos h]

theorem check_latches (env : ClientEnv) (a : EndCheckArgs) (s : ClientState)
    (h : s.chatCompleted = false)
    (hs : jsIncludes a.assistantText "END_INTERVIEW" = true) :
    (checkForInterviewEnd env a s).1.chatCompleted = true := by
  unfold checkForInterviewEnd
  rw [if_neg (by simp [h]), if_pos hs]
  simp [finalize_chatCompleted]

theorem countP_post_ensure (env : ClientEnv) (s : ClientState) :
    (ensureTranscriptStarted env s).2.2.countP isPostParent = 0 := by
  unfold ensureTranscriptStarted
  rcases s.transcriptId with _ | id
  · rcases env.startOutcome with ⟨tid, sa⟩ | _ | _ <;> try simp [isPostParent]
    rcases tid with _ | v <;> simp [isPostParent]
    split <;> simp [isPostParent]
  · simp

theorem countP_post_finalize (env : ClientEnv) (args : FinalizeArgs) (s : ClientState) :
    (finalizeTranscriptOnce env args s).2.countP isPostParent = 0 := by
  unfold finalizeTranscriptOnce
  split
  · simp
  · cases h : (ensureTranscriptStarted env { s with transcriptFinalized := true }).1.1
    · simp [h, countP_post_ensure]
    · simp [h, List.countP_append, countP_post_ensure, isPostParent]

theorem check_summary_once (env : ClientEnv) (a : EndCheckArgs) (s : ClientState)
    (h : s.chatCompleted = false)
    (hs : jsIncludes a.assistantText "END_INTERVIEW" = true)
    (he : env.embedded = true) :
    (checkForInterviewEnd env a s).2.countP isPostParent = 1 := by
  unfold checkForInterviewEnd
  rw [if_neg (by simp [h]), if_pos hs]
  simp [List.countP_append, countP_post_finalize, sendChatCompletionSummary, he,
    isPostParent]

theorem check_payload_some (env : ClientEnv) (a : EndCheckArgs) (s : ClientState)
    (t : Nat)
    (h : s.chatCompleted = false)
    (hs : jsIncludes a.assistantText "END_INTERVIEW" = true)
    (he : env.embedded = true)
    (ht : s.chatStartTime = some t) (ht0 : t ≠ 0) :
    ClientEffect.postParentMessage
      { type := "chat_complete", threadId := a.finalThreadId
        messageCount := a.messageCount, userMessageCount := a.userMessageCount
        durationSeconds := some (jsRoundMsToSec ((env.endNow : Int) - (t : Int)))
        finishedReason := "END_INTERVIEW", completionTimestamp := env.nowIso }
      ∈ (checkForInterviewEnd env a s).2 := by
  unfold checkForInterviewEnd
  rw [if_neg (by simp [h]), if_pos hs]
  simp [sendChatCompletionSummary, he, ht, ht0]

theorem check_payload_none (env : ClientEnv) (a : EndCheckArgs) (s : ClientState)
    (h : s.chatCompleted = false)
    (hs : jsIncludes a.assistantText "END_INTERVIEW" = true)
    (he : env.embedded = true)
    (ht : s.chatStartTime = none) :
    ClientEffect.postParentMessage
      { type := "chat_complete", threadId := a.finalThreadId
        messageCount := a.messageCount, userMessageCount := a.userMessageCount
        durationSeconds := none
        finishedReason := "END_INTERVIEW", completionTimestamp := env.nowIso }
      ∈ (checkForInterviewEnd env a s).2 := by
  unfold checkForInterviewEnd
  rw [if_neg (by simp [h]), if_pos hs]
  simp [sendChatCompletionSummary, he, ht]

end ClientPage

/-! ### Run-serialization-gate lemmas (C3) -/

namespace ChatApi

theorem waitLoop_zero (poll : Nat → PollOutcome) (maxWaitMs elapsed i : Nat) :
    waitLoop poll maxWaitMs 0 elapsed i = (false, elapsed) := rfl

theorem waitLoop_succ (poll : Nat → PollOutcome) (maxWaitMs fuel elapsed i : Nat) :
    waitLoop poll maxWaitMs (fuel + 1) elapsed i =
      if elapsed < maxWaitMs then
        match poll i with
        | PollOutcome.err => (true, elapsed)
        | PollOutcome.ok runs =>
          if hasActiveRun runs then
            waitLoop poll maxWaitMs fuel (elapsed + 500) (i + 1)
          else (true, elapsed)
      else (false, elapsed) := rfl

theorem waitLoop_always_active (poll : Nat → PollOutcome) (maxWaitMs : Nat)
    (hactive : ∀ j, ∃ runs, poll j = PollOutcome.ok runs ∧ hasActiveRun runs = true) :
    ∀ fuel elapsed i, elapsed < maxWaitMs + 500 → maxWaitMs ≤ elapsed + 500 * fuel →
      ∃ E, waitLoop poll maxWaitMs fuel elapsed i = (false, E) ∧
        maxWaitMs ≤ E ∧ E < maxWaitMs + 500 := by
  intro fuel
  induction fuel with
  | zero =>
    intro elapsed i hlt hle
    exact ⟨elapsed, rfl, by omega, hlt⟩
  | succ fuel ih =>
    intro elapsed i hlt hle
    rw [waitLoop_succ]
    by_cases hcond : elapsed < maxWaitMs
    · obtain ⟨runs, hpoll, hrun⟩ := hactive i
      rw [if_pos hcond, hpoll]
      simp only [hrun, if_true]
      exact ih (elapsed + 500) (i + 1) (by omega) (by omega)
    · rw [if_neg hcond]
      exact ⟨elapsed, rfl, by omega, hlt⟩

theorem waitLoop_fails_open (poll : Nat → PollOutcome) (maxWaitMs : Nat) :
    ∀ k fuel elapsed i,
      (∀ j, j < k → ∃ runs, poll (i + j) = PollOutcome.ok runs ∧ hasActiveRun runs = true) →
      poll (i + k) = PollOutcome.err →
      elapsed + 500 * k < maxWaitMs → k < fuel →
      waitLoop poll maxWaitMs fuel elapsed i = (true, elapsed + 500 * k) := by
  intro k
  induction k with
  | zero =>
    intro fuel elapsed i _ herr hlt hfuel
    obtain ⟨fuel, rfl⟩ : ∃ f, fuel = f + 1 := ⟨fuel - 1, by omega⟩
    rw [waitLoop_succ, if_pos (by omega)]
    simp only [Nat.add_zero] at herr
    rw [herr]
    simp
  | succ k ih =>
    intro fuel elapsed i hact herr hlt hfuel
    obtain ⟨fuel, rfl⟩ : ∃ f, fuel = f + 1 := ⟨fuel - 1, by omega⟩
    obtain ⟨runs, hpoll, hrun⟩ := hact 0 (by omega)
    simp only [Nat.add_zero] at hpoll
    rw [waitLoop_succ, if_pos (by omega), hpoll]
    simp only [hrun, if_true]
    have hres := ih fuel (elapsed + 500) (i + 1)
      (fun j hj => by
        have := hact (j + 1) (by omega)
        simpa [Nat.add_assoc, Nat.add_comm 1 j] using this)
      (by
        have heq : i + 1 + k = i + (k + 1) := by omega
        rw [heq]; exact herr)
      (by omega) (by omega)
    rw [hres]
    have heq2 : elapsed + 500 + 500 * k = elapsed + 500 * (k + 1) := by ring
    rw [heq2]

end ChatApi

/-! ### Header-sanitization lemmas (C7) -/

theorem blankBad_clean (l : List Char) (n : Nat) :
    (((l.map (fun c => if c = '\r' ∨ c = '\n' ∨ c = '\t' then ' ' else c)).take n).all
      (fun c => (c != '\r') && (c != '\n') && (c != '\t'))) = true := by
  rw [List.all_eq_true]
  intro c hc
  have hc2 := List.mem_of_mem_take hc
  obtain ⟨a, _, rfl⟩ := List.mem_map.mp hc2
  by_cases hbad : a = '\r' ∨ a = '\n' ∨ a = '\t'
  · simp [hbad]
  · push_neg at hbad
    simp [if_neg, hbad]

theorem safeParticipantId_clean (v : Option String) :
    noCRLFTab (ChatApi.safeParticipantId v) = true ∧
    (ChatApi.safeParticipantId v).length ≤ 120 := by
  unfold ChatApi.safeParticipantId
  rcases v with _ | s
  · exact ⟨by decide, by decide⟩
  · dsimp only
    split
    · exact ⟨by decide, by decide⟩
    · constructor
      · exact blankBad_clean _ 120
      · show (List.take 120 _).length ≤ 120
        simp

theorem safeContextValue_clean (v : Option String) :
    noCRLFTab (ChatApi.safeContextValue v) = true ∧
    (ChatApi.safeContextValue v).length ≤ 240 := by
  unfold ChatApi.safeContextValue
  rcases v with _ | s
  · exact ⟨by decide, by decide⟩
  · dsimp only
    split
    · exact ⟨by decide, by decide⟩
    · constructor
      · exact blankBad_clean _ 240
      · show (List.take 240 _).length ≤ 240
        simp

theorem collapse_single_line (l : List Char) (b : Bool) :
    ((TranscriptStartApi.collapseNewlineRunsAux b l).all
      (fun c => (c != '\r') && (c != '\n'))) = true := by
  induction l generalizing b with
  | nil => rfl
  | cons c rest ih =>
    unfold TranscriptStartApi.collapseNewlineRunsAux
    by_cases hc : c = '\r' ∨ c = '\n'
    · rw [if_pos hc]
      rcases b with _ | _
      · simpa using ih true
      · simpa using ih true
    · rw [if_neg hc]
      push_neg at hc
      simp [ih false, hc]

theorem safeLine_single_line (v : Option String) :
    optionSingleLine (TranscriptStartApi.safeLine v) = true := by
  unfold TranscriptStartApi.safeLine
  rcases v with _ | s
  · rfl
  · dsimp only
    split
    · rfl
    · exact collapse_single_line _ false

/-! ### Claim theorems -/

/-- C1: a turn submission whose message is empty/whitespace-only after
trimming, or made while a prior submission is in flight, or while a voice
transcription is resolving, issues no outbound turn request and leaves the
conversation state unchanged; every accepted submission issues exactly one
outbound turn request. -/
theorem c1_turn_submission_guard :
    (∀ env s, (jsTrim s.input = "" ∨ s.isLoading = true ∨ s.isTranscribing = true) →
      ClientPage.sendMessage env s = (s, [])) ∧
    (∀ env s, jsTrim s.input ≠ "" → s.isLoading = false → s.isTranscribing = false →
      ((ClientPage.sendMessage env s).2.countP ClientPage.isChatRequest) = 1) := by
  constructor
  · intro env s h
    unfold ClientPage.sendMessage
    rw [if_pos h]
  · intro env s h1 h2 h3
    unfold ClientPage.sendMessage
    rw [if_neg (by simp [h1, h2, h3])]
    rcases env.chatOutcome with ⟨r, t⟩ | e | m <;>
      simp [ClientPage.isChatRequest, List.countP_append, List.countP_cons,
        ClientPage.countP_chatRequest_check]

/-- C1 witness: a whitespace-only submission is a no-op, and an accepted
submission issues exactly one outbound request, on concrete inputs. -/
theorem c1_witness :
    ClientPage.sendMessage
        { startNow := 1000, endNow := 5000, nowIso := "2024-01-01T00:00:10.000Z"
          embedded := true
          chatOutcome := ClientPage.ChatFetchOutcome.success (some "Hi there") none
          startOutcome := ClientPage.StartOutcome.ok (some "tid1") (some "iso0") }
        { messages := [], input := "   ", threadId := none, isLoading := false
          isTranscribing := false, inputMode := ClientPage.InputMode.text
          transcriptId := none, transcriptFinalized := false
          interviewStatus := "Chat in progress…", chatStartTime := none
          chatCompleted := false }
      = ({ messages := [], input := "   ", threadId := none, isLoading := false
           isTranscribing := false, inputMode := ClientPage.InputMode.text
           transcriptId := none, transcriptFinalized := false
           interviewStatus := "Chat in progress…", chatStartTime := none
           chatCompleted := false }, []) ∧
    ((ClientPage.sendMessage
        { startNow := 1000, endNow := 5000, nowIso := "2024-01-01T00:00:10.000Z"
          embedded := true
          chatOutcome := ClientPage.ChatFetchOutcome.success (some "Hi there") none
          startOutcome := ClientPage.StartOutcome.ok (some "tid1") (some "iso0") }
        { messages := [], input := "hello", threadId := none, isLoading := false
          isTranscribing := false, inputMode := ClientPage.InputMode.text
          transcriptId := none, transcriptFinalized := false
          interviewStatus := "Chat in progress…", chatStartTime := none
          chatCompleted := false }).2.countP ClientPage.isChatRequest) = 1 :=
  ⟨c1_turn_submission_guard.1 _ _ (Or.inl (by decide)),
   c1_turn_submission_guard.2 _ _ (by decide) rfl rfl⟩

/-- C2: the end-of-session detector transitions to completed at most once: a
completed session ignores further replies entirely (state unchanged, no
effects, latch never reset), a first sentinel-bearing reply sets the latch,
and after it any second sentinel-bearing reply triggers no additional summary
emission and no additional finalization. -/
theorem c2_end_detector_latch :
    (∀ env a s, s.chatCompleted = true →
      ClientPage.checkForInterviewEnd env a s = (s, [])) ∧
    (∀ env a s, s.chatCompleted = false →
      jsIncludes a.assistantText "END_INTERVIEW" = true →
      (ClientPage.checkForInterviewEnd env a s).1.chatCompleted = true) ∧
    (∀ env env' a a' s, s.chatCompleted = false →
      jsIncludes a.assistantText "END_INTERVIEW" = true →
      jsIncludes a'.assistantText "END_INTERVIEW" = true →
      ClientPage.checkForInterviewEnd env' a'
          (ClientPage.checkForInterviewEnd env a s).1
        = ((ClientPage.checkForInterviewEnd env a s).1, [])) :=
  ⟨fun env a s h => ClientPage.check_noop env a s h,
   fun env a s h hs => ClientPage.check_latches env a s h hs,
   fun env env' a a' s h hs _ =>
     ClientPage.check_noop env' a' _ (ClientPage.check_latches env a s h hs)⟩

/-- C2 witness: on concrete inputs, a second sentinel-bearing reply after a
first one changes nothing and emits nothing. -/
theorem c2_witness :
    ClientPage.checkForInterviewEnd
        { startNow := 1000, endNow := 9000, nowIso := "2024-01-01T00:00:09.000Z"
          embedded := true
          chatOutcome := ClientPage.ChatFetchOutcome.success none none
          startOutcome := ClientPage.StartOutcome.ok (some "tid1") (some "iso0") }
        { assistantText := "Thanks again. END_INTERVIEW", finalThreadId := some "thread_1"
          messageCount := 4, userMessageCount := 2, finalMessagesSnapshot := [] }
        (ClientPage.checkForInterviewEnd
          { startNow := 1000, endNow := 8000, nowIso := "2024-01-01T00:00:08.000Z"
            embedded := true
            chatOutcome := ClientPage.ChatFetchOutcome.success none none
            startOutcome := ClientPage.StartOutcome.ok (some "tid1") (some "iso0") }
          { assistantText := "Goodbye. END_INTERVIEW", finalThreadId := some "thread_1"
            messageCount := 4, userMessageCount := 2, finalMessagesSnapshot := [] }
          { messages := [], input := "", threadId := some "thread_1", isLoading := false
            isTranscribing := false, inputMode := ClientPage.InputMode.text
            transcriptId := some "tid1", transcriptFinalized := false
            interviewStatus := "Chat in progress…", chatStartTime := some 1000
            chatCompleted := false }).1
      = ((ClientPage.checkForInterviewEnd
          { startNow := 1000, endNow := 8000, nowIso := "2024-01-01T00:00:08.000Z"
            embedded := true
            chatOutcome := ClientPage.ChatFetchOutcome.success none none
            startOutcome := ClientPage.StartOutcome.ok (some "tid1") (some "iso0") }
          { assistantText := "Goodbye. END_INTERVIEW", finalThreadId := some "thread_1"
            messageCount := 4, userMessageCount := 2, finalMessagesSnapshot := [] }
          { messages := [], input := "", threadId := some "thread_1", isLoading := false
            isTranscribing := false, inputMode := ClientPage.InputMode.text
            transcriptId := some "tid1", transcriptFinalized := false
            interviewStatus := "Chat in progress…", chatStartTime := some 1000
            chatCompleted := false }).1, []) :=
  c2_end_detector_latch.2.2 _ _ _ _ _ rfl (by decide) (by decide)

/-- C5: transcript finalization is caller-side idempotent: a finalized session
makes the finalize operation a complete no-op (no state change, no requests),
one call always leaves the latch set, hence a second sequential call for the
same transcript is a no-op; meanwhile the storage layer's finalize write uses
`allowOverwrite` and so would accept repeated writes. -/
theorem c5_finalize_caller_side_idempotent :
    (∀ env args s, s.transcriptFinalized = true →
      ClientPage.finalizeTranscriptOnce env args s = (s, [])) ∧
    (∀ env args s,
      (ClientPage.finalizeTranscriptOnce env args s).1.transcriptFinalized = true) ∧
    (∀ env env' args args' s,
      ClientPage.finalizeTranscriptOnce env' args'
          (ClientPage.finalizeTranscriptOnce env args s).1
        = ((ClientPage.finalizeTranscriptOnce env args s).1, [])) ∧
    (∀ tid ft env, tid ≠ "" → ft ≠ "" →
      TranscriptAppendApi.cleanTextBlock ft ≠ "" →
      (TranscriptAppendApi.POST
          { transcriptId := some tid, mode := some "finalize",
            fullText := some ft, metadata := none, ts := none, line := none,
            role := none, text := none }
        env).2.map BlobPut.allowOverwrite = [true]) := by
  refine ⟨fun env args s h => ClientPage.finalize_noop env args s h,
    fun env args s => ClientPage.finalize_latched env args s,
    fun env env' args args' s =>
      ClientPage.finalize_noop env' args' _ (ClientPage.finalize_latched env args s),
    ?_⟩
  intro tid ft env htid hft hclean
  unfold TranscriptAppendApi.POST
  simp only
  rw [if_neg htid]
  have hmode : jsToLower (jsTrim "finalize") = "finalize" := by decide
  rw [hmode, if_pos rfl, if_neg hft, if_neg hclean]
  simp

/-- C5 witness: finalize-twice on a concrete session is a no-op the second
time, and a concrete finalize-mode write goes to storage with overwrite
allowed. -/
theorem c5_witness :
    ClientPage.finalizeTranscriptOnce
        { startNow := 1000, endNow := 9000, nowIso := "2024-01-01T00:00:09.000Z"
          embedded := true
          chatOutcome := ClientPage.ChatFetchOutcome.success none none
          startOutcome := ClientPage.StartOutcome.ok (some "tid1") (some "iso0") }
        { finalMessagesSnapshot := [], finalThreadId := some "thread_1" }
        (ClientPage.finalizeTranscriptOnce
          { startNow := 1000, endNow := 8000, nowIso := "2024-01-01T00:00:08.000Z"
            embedded := true
            chatOutcome := ClientPage.ChatFetchOutcome.success none none
            startOutcome := ClientPage.StartOutcome.ok (some "tid1") (some "iso0") }
          { finalMessagesSnapshot := [], finalThreadId := some "thread_1" }
          { messages := [], input := "", threadId := some "thread_1", isLoading := false
            isTranscribing := false, inputMode := ClientPage.InputMode.text
            transcriptId := none, transcriptFinalized := false
            interviewStatus := "Chat in progress…", chatStartTime := some 1000
            chatCompleted := true }).1
      = ((ClientPage.finalizeTranscriptOnce
          { startNow := 1000, endNow := 8000, nowIso := "2024-01-01T00:00:08.000Z"
            embedded := true
            chatOutcome := ClientPage.ChatFetchOutcome.success none none
            startOutcome := ClientPage.StartOutcome.ok (some "tid1") (some "iso0") }
          { finalMessagesSnapshot := [], finalThreadId := some "thread_1" }
          { messages := [], input := "", threadId := some "thread_1", isLoading := false
            isTranscribing := false, inputMode := ClientPage.InputMode.text
            transcriptId := none, transcriptFinalized := false
            interviewStatus := "Chat in progress…", chatStartTime := some 1000
            chatCompleted := true }).1, []) ∧
    (TranscriptAppendApi.POST
        { transcriptId := some "tid1", mode := some "finalize",
          fullText := some "User: hi", metadata := none, ts := none, line := none,
          role := none, text := none }
        { existingText := none, nowIso := "iso" }).2.map BlobPut.allowOverwrite
      = [true] :=
  ⟨c5_finalize_caller_side_idempotent.2.2.1 _ _ _ _ _,
   c5_finalize_caller_side_idempotent.2.2.2 "tid1" "User: hi" _ (by decide) (by decide)
     (by decide)⟩

/-- C9: for every accepted submission the in-flight flag is cleared by the end
of the submission path, on success, on a non-2xx server response, and on a
thrown network exception alike. -/
theorem c9_inflight_cleared_all_paths :
    ∀ env s, jsTrim s.input ≠ "" → s.isLoading = false → s.isTranscribing = false →
      (ClientPage.sendMessage env s).1.isLoading = false := by
  intro env s h1 h2 h3
  unfold ClientPage.sendMessage
  rw [if_neg (by simp [h1, h2, h3])]
  rcases env.chatOutcome with ⟨r, t⟩ | e | m <;> simp

/-- C9 witness: the flag is cleared on a concrete success, a concrete server
error, and a concrete network exception. -/
theorem c9_witness :
    (ClientPage.sendMessage
        { startNow := 1000, endNow := 5000, nowIso := "iso", embedded := true
          chatOutcome := ClientPage.ChatFetchOutcome.success (some "ok") none
          startOutcome := ClientPage.StartOutcome.httpError }
        { messages := [], input := "hello", threadId := none, isLoading := false
          isTranscribing := false, inputMode := ClientPage.InputMode.text
          transcriptId := none, transcriptFinalized := false
          interviewStatus := "", chatStartTime := none
          chatCompleted := false }).1.isLoading = false ∧
    (ClientPage.sendMessage
        { startNow := 1000, endNow := 5000, nowIso := "iso", embedded := true
          chatOutcome := ClientPage.ChatFetchOutcome.httpError (some "busy")
          startOutcome := ClientPage.StartOutcome.httpError }
        { messages := [], input := "hello", threadId := none, isLoading := false
          isTranscribing := false, inputMode := ClientPage.InputMode.text
          transcriptId := none, transcriptFinalized := false
          interviewStatus := "", chatStartTime := none
          chatCompleted := false }).1.isLoading = false ∧
    (ClientPage.sendMessage
        { startNow := 1000, endNow := 5000, nowIso := "iso", embedded := true
          chatOutcome := ClientPage.ChatFetchOutcome.exception none
          startOutcome := ClientPage.StartOutcome.httpError }
        { messages := [], input := "hello", threadId := none, isLoading := false
          isTranscribing := false, inputMode := ClientPage.InputMode.text
          transcriptId := none, transcriptFinalized := false
          interviewStatus := "", chatStartTime := none
          chatCompleted := false }).1.isLoading = false :=
  ⟨c9_inflight_cleared_all_paths _ _ (by decide) rfl rfl,
   c9_inflight_cleared_all_paths _ _ (by decide) rfl rfl,
   c9_inflight_cleared_all_paths _ _ (by decide) rfl rfl⟩

/-- C8: when the detector transitions to completed, exactly one summary object
is posted to the parent context, of shape `type = "chat_complete"` with the
thread id, message counts, finish reason and completion timestamp, and with
`durationSeconds` the millisecond gap from the first-turn timestamp rounded to
whole seconds, or `null` when no first-turn timestamp was recorded. -/
theorem c8_completion_summary_payload :
    (∀ env a s (t : Nat), s.chatCompleted = false →
      jsIncludes a.assistantText "END_INTERVIEW" = true →
      env.embedded = true → s.chatStartTime = some t → t ≠ 0 →
      (ClientPage.checkForInterviewEnd env a s).2.countP ClientPage.isPostParent = 1 ∧
      ClientPage.ClientEffect.postParentMessage
          { type := "chat_complete", threadId := a.finalThreadId
            messageCount := a.messageCount, userMessageCount := a.userMessageCount
            durationSeconds :=
              some (ClientPage.jsRoundMsToSec ((env.endNow : Int) - (t : Int)))
            finishedReason := "END_INTERVIEW", completionTimestamp := env.nowIso }
        ∈ (ClientPage.checkForInterviewEnd env a s).2) ∧
    (∀ env a s, s.chatCompleted = false →
      jsIncludes a.assistantText "END_INTERVIEW" = true →
      env.embedded = true → s.chatStartTime = none →
      ClientPage.ClientEffect.postParentMessage
          { type := "chat_complete", threadId := a.finalThreadId
            messageCount := a.messageCount, userMessageCount := a.userMessageCount
            durationSeconds := none
            finishedReason := "END_INTERVIEW", completionTimestamp := env.nowIso }
        ∈ (ClientPage.checkForInterviewEnd env a s).2) :=
  ⟨fun env a s t h hs he ht ht0 =>
    ⟨ClientPage.check_summary_once env a s h hs he,
     ClientPage.check_payload_some env a s t h hs he ht ht0⟩,
   fun env a s h hs he ht => ClientPage.check_payload_none env a s h hs he ht⟩

/-- C8 witness: on a concrete transition 7 250ms after a first turn at t=1000,
the posted payload carries `durationSeconds = 7` (rounded), and with no
first-turn timestamp it carries `null`. -/
theorem c8_witness :
    ((ClientPage.checkForInterviewEnd
        { startNow := 1000, endNow := 8250, nowIso := "2024-01-01T00:00:08.250Z"
          embedded := true
          chatOutcome := ClientPage.ChatFetchOutcome.success none none
          startOutcome := ClientPage.StartOutcome.exception }
        { assistantText := "Bye. END_INTERVIEW", finalThreadId := some "thread_1"
          messageCount := 6, userMessageCount := 3, finalMessagesSnapshot := [] }
        { messages := [], input := "", threadId := some "thread_1", isLoading := false
          isTranscribing := false, inputMode := ClientPage.InputMode.text
          transcriptId := none, transcriptFinalized := true
          interviewStatus := "", chatStartTime := some 1000
          chatCompleted := false }).2.countP ClientPage.isPostParent = 1 ∧
     ClientPage.ClientEffect.postParentMessage
        { type := "chat_complete", threadId := some "thread_1"
          messageCount := 6, userMessageCount := 3
          durationSeconds := some (ClientPage.jsRoundMsToSec ((8250 : Int) - (1000 : Int)))
          finishedReason := "END_INTERVIEW"
          completionTimestamp := "2024-01-01T00:00:08.250Z" }
       ∈ (ClientPage.checkForInterviewEnd
        { startNow := 1000, endNow := 8250, nowIso := "2024-01-01T00:00:08.250Z"
          embedded := true
          chatOutcome := ClientPage.ChatFetchOutcome.success none none
          startOutcome := ClientPage.StartOutcome.exception }
        { assistantText := "Bye. END_INTERVIEW", finalThreadId := some "thread_1"
          messageCount := 6, userMessageCount := 3, finalMessagesSnapshot := [] }
        { messages := [], input := "", threadId := some "thread_1", isLoading := false
          isTranscribing := false, inputMode := ClientPage.InputMode.text
          transcriptId := none, transcriptFinalized := true
          interviewStatus := "", chatStartTime := some 1000
          chatCompleted := false }).2) ∧
    ClientPage.ClientEffect.postParentMessage
        { type := "chat_complete", threadId := none
          messageCount := 2, userMessageCount := 1
          durationSeconds := none
          finishedReason := "END_INTERVIEW"
          completionTimestamp := "2024-01-01T00:00:03.000Z" }
      ∈ (ClientPage.checkForInterviewEnd
        { startNow := 1000, endNow := 3000, nowIso := "2024-01-01T00:00:03.000Z"
          embedded := true
          chatOutcome := ClientPage.ChatFetchOutcome.success none none
          startOutcome := ClientPage.StartOutcome.exception }
        { assistantText := "END_INTERVIEW", finalThreadId := none
          messageCount := 2, userMessageCount := 1, finalMessagesSnapshot := [] }
        { messages := [], input := "", threadId := none, isLoading := false
          isTranscribing := false, inputMode := ClientPage.InputMode.text
          transcriptId := none, transcriptFinalized := true
          interviewStatus := "", chatStartTime := none
          chatCompleted := false }).2 :=
  ⟨c8_completion_summary_payload.1 _ _ _ 1000 rfl (by decide) rfl rfl (by decide),
   c8_completion_summary_payload.2 _ _ _ rfl (by decide) rfl rfl⟩

/-- C3: against a thread whose run list always reports a non-terminal run, the
gate returns blocked with a total waited time of at least its 15s budget and
at most one further 500ms poll interval; and if the run-list poll throws at
some reachable iteration, the gate returns clear (fails open). -/
theorem c3_run_gate_timeout_and_fail_open :
    (∀ poll, (∀ j, ∃ runs, poll j = ChatApi.PollOutcome.ok runs ∧
        ChatApi.hasActiveRun runs = true) →
      ∃ E, ChatApi.waitForNoActiveRun poll 15000 = (false, E) ∧
        15000 ≤ E ∧ E ≤ 15000 + 500) ∧
    (∀ poll k, (∀ j, j < k → ∃ runs, poll j = ChatApi.PollOutcome.ok runs ∧
        ChatApi.hasActiveRun runs = true) →
      poll k = ChatApi.PollOutcome.err → 500 * k < 15000 →
      (ChatApi.waitForNoActiveRun poll 15000).1 = true) := by
  constructor
  · intro poll hactive
    obtain ⟨E, hE, h1, h2⟩ := ChatApi.waitLoop_always_active poll 15000 hactive
      (15000 / 500 + 1) 0 0 (by omega) (by omega)
    exact ⟨E, hE, h1, by omega⟩
  · intro poll k hact herr hk
    have hres := ChatApi.waitLoop_fails_open poll 15000 k (15000 / 500 + 1) 0 0
      (fun j hj => by simpa using hact j hj)
      (by simpa using herr) (by omega) (by omega)
    unfold ChatApi.waitForNoActiveRun
    rw [hres]

/-- C3 witness: a poll stream that always reports an `in_progress` run blocks
after exactly the 15s budget, and a poll stream that throws immediately is
treated as clear. -/
theorem c3_witness :
    (∃ E, ChatApi.waitForNoActiveRun
        (fun _ => ChatApi.PollOutcome.ok [{ status := "in_progress" }]) 15000
        = (false, E) ∧ 15000 ≤ E ∧ E ≤ 15000 + 500) ∧
    (ChatApi.waitForNoActiveRun (fun _ => ChatApi.PollOutcome.err) 15000).1 = true :=
  ⟨c3_run_gate_timeout_and_fail_open.1 _
    (fun _ => ⟨[{ status := "in_progress" }], rfl, by decide⟩),
   c3_run_gate_timeout_and_fail_open.2 _ 0 (fun j hj => absurd hj (by omega))
     rfl (by omega)⟩

/-- C4: whenever the run gate reports blocked, the chat endpoint answers 409
with the retry-shortly message, and performs none of the turn side effects: no
context injection, no transcript write, no user message added to the thread,
and no run started. -/
theorem c4_blocked_submission_rejected_409 :
    ∀ body env m aid, body.message = some m → m ≠ "" →
      env.assistantId = some aid →
      (ChatApi.waitForNoActiveRun env.poll 15000).1 = false →
      (ChatApi.POST body env).1 = ChatApi.chatErrResp 409
        "Please wait a moment. The assistant is still finishing the previous step. Then try sending again." ∧
      (ChatApi.POST body env).2.countP ChatApi.isTurnEffect = 0 := by
  intro body env m aid hm hm0 ha hg
  unfold ChatApi.POST
  rw [hm, ha]
  simp only [hm0, if_neg, ite_false, if_false]
  rw [if_pos (by simp [hg])]
  constructor
  · rfl
  · rcases hbt : body.threadId with _ | t
    · simp [ChatApi.isTurnEffect]
    · by_cases hst : jsStartsWith t "thread_" = true <;>
        rcases hro : env.retrieveOk with _ | _ <;>
          simp [hst, hro, ChatApi.isTurnEffect]

/-- C4 witness: a concrete request against an always-busy thread gets the 409
and produces no turn side effects. -/
theorem c4_witness :
    (ChatApi.POST
        { ChatApi.emptyChatBody with
          message := some "hello"
          threadId := some "thread_9" }
        { assistantId := some "asst_1", retrieveOk := true
          createdThreadId := "thread_new"
          poll := fun _ => ChatApi.PollOutcome.ok [{ status := "queued" }]
          injectOk := true, userWriteOk := true, runStatus := "completed"
          runLastError := none, listed := [], assistantWriteOk := true
          nowIso := "iso", nowMs := 42 }).1
      = ChatApi.chatErrResp 409
          "Please wait a moment. The assistant is still finishing the previous step. Then try sending again." ∧
    (ChatApi.POST
        { ChatApi.emptyChatBody with
          message := some "hello"
          threadId := some "thread_9" }
        { assistantId := some "asst_1", retrieveOk := true
          createdThreadId := "thread_new"
          poll := fun _ => ChatApi.PollOutcome.ok [{ status := "queued" }]
          injectOk := true, userWriteOk := true, runStatus := "completed"
          runLastError := none, listed := [], assistantWriteOk := true
          nowIso := "iso", nowMs := 42 }).2.countP ChatApi.isTurnEffect = 0 :=
  c4_blocked_submission_rejected_409 _ _ "hello" "asst_1" rfl (by decide) rfl
    (by
      obtain ⟨E, hE, _, _⟩ := ChatApi.waitLoop_always_active
        (fun _ => ChatApi.PollOutcome.ok [{ status := "queued" }]) 15000
        (fun _ => ⟨[{ status := "queued" }], rfl, by decide⟩)
        (15000 / 500 + 1) 0 0 (by omega) (by omega)
      unfold ChatApi.waitForNoActiveRun
      rw [hE])

/-- C6 counterexample: the cleaning step preserves the interior space between
`Hello` and the first newline (only the ends are trimmed), so the cleaned body
of the claimed input is `"Hello \n\nWorld"`, not `"Hello\n\nWorld"`. -/
theorem c6_counterexample :
    TranscriptAppendApi.cleanTextBlock "  Hello \r\n\r\nWorld  " = "Hello \n\nWorld" ∧
    TranscriptAppendApi.cleanTextBlock "  Hello \r\n\r\nWorld  " ≠ "Hello\n\nWorld" := by
  constructor <;> decide

set_option maxRecDepth 4000 in
/-- C6 (amended): a finalize-mode transcript write with fullText
`"  Hello \r\n\r\nWorld  "` stores exactly the cleaned body
`"Hello \n\nWorld"` plus the trailing newline the route appends — the interior
space before the first newline is preserved, and no carriage returns remain. -/
theorem c6_finalize_cleaning :
    TranscriptAppendApi.POST
        { transcriptId := some "t1", mode := some "finalize",
          fullText := some "  Hello \r\n\r\nWorld  ", metadata := none,
          ts := none, line := none, role := none, text := none }
        { existingText := none, nowIso := "2024-01-01T00:00:00.000Z" }
      = ({ TranscriptAppendApi.okResp with
           modeEcho := some "finalize"
           metadataIncluded := some false },
         [{ path := "chat-transcripts/t1.txt", content := "Hello \n\nWorld\n",
            allowOverwrite := true }]) ∧
    '\r' ∉ "Hello \n\nWorld\n".data := by
  constructor <;> decide

set_option maxRecDepth 4000 in
/-- C7 counterexample: the transcript-start route's `safeLine` neither strips
tabs nor caps length: a 305-character value with an embedded newline and tab
is stored 305 characters long (beyond every cap in the repository: 120, 200,
240) and still contains the tab. It is made single-line only. -/
theorem c7_counterexample :
    (TranscriptStartApi.safeLine (some c7LongValue)).map String.length = some 305 ∧
    optionContainsTab (TranscriptStartApi.safeLine (some c7LongValue)) = true := by
  constructor <;> decide

/-- C7 (amended): the chat route's header sanitizers do strip CR/LF/tab and
cap length (participant id at 120, context values at 240), while the
transcript-start route's `safeLine` only collapses CR/LF runs to a space
(single-line) without tab stripping or a length cap. -/
theorem c7_header_sanitization :
    ∀ v : Option String,
      noCRLFTab (ChatApi.safeParticipantId v) = true ∧
      (ChatApi.safeParticipantId v).length ≤ 120 ∧
      noCRLFTab (ChatApi.safeContextValue v) = true ∧
      (ChatApi.safeContextValue v).length ≤ 240 ∧
      optionSingleLine (TranscriptStartApi.safeLine v) = true :=
  fun v =>
    ⟨(safeParticipantId_clean v).1, (safeParticipantId_clean v).2,
     (safeContextValue_clean v).1, (safeContextValue_clean v).2,
     safeLine_single_line v⟩

/-- C10: with an empty supplied value each substitution helper returns the
reply unchanged; with a non-empty value free of `$`/`{`/`}`, every occurrence
of each placeholder of the corresponding family in a reply whose other
segments are free of `$`/`{`/`}` is replaced by the value. -/
theorem c10_placeholder_substitution :
    (∀ reply, ChatApi.applyTopBenefitSubstitution reply "" = reply) ∧
    (∀ reply, ChatApi.applyTopRiskSubstitution reply "" = reply) ∧
    (∀ reply, ChatApi.applyParticipantIdSubstitution reply "" = reply) ∧
    (∀ v pre mid post, v ≠ "" → braceDollarFree v = true →
      braceDollarFree pre = true → braceDollarFree mid = true →
      braceDollarFree post = true →
      (∀ p ∈ benefitPatterns,
        ChatApi.applyTopBenefitSubstitution (pre ++ p ++ mid ++ p ++ post) v
          = pre ++ v ++ mid ++ v ++ post) ∧
      (∀ p ∈ riskPatterns,
        ChatApi.applyTopRiskSubstitution (pre ++ p ++ mid ++ p ++ post) v
          = pre ++ v ++ mid ++ v ++ post) ∧
      (∀ p ∈ participantPatterns,
        ChatApi.applyParticipantIdSubstitution (pre ++ p ++ mid ++ p ++ post) v
          = pre ++ v ++ mid ++ v ++ post)) := by
  refine ⟨?_, ?_, ?_, ?_⟩
  · intro reply
    unfold ChatApi.applyTopBenefitSubstitution
    split
    · rfl
    · rw [if_pos rfl]
  · intro reply
    unfold ChatApi.applyTopRiskSubstitution
    split
    · rfl
    · rw [if_pos rfl]
  · intro reply
    unfold ChatApi.applyParticipantIdSubstitution
    split
    · rfl
    · rw [if_pos rfl]
  · intro v pre mid post hv hbv hbpre hbmid hbpost
    exact ⟨benefit_subst v pre mid post hv hbv hbpre hbmid hbpost,
      risk_subst v pre mid post hv hbv hbpre hbmid hbpost,
      participant_subst v pre mid post hv hbv hbpre hbmid hbpost⟩

/-- C10 witness: concrete substitutions — the dollar-brace TopBenefit
placeholder is replaced twice by a concrete ranked value, the Qualtrics piped
TopRisk placeholder is replaced, and an empty participant id leaves a reply
unchanged. -/
theorem c10_witness :
    ChatApi.applyTopBenefitSubstitution
        ("You ranked " ++ "$\x7bTopBenefit\x7d" ++ " first; recall " ++
          "$\x7bTopBenefit\x7d" ++ " was your answer.") "Better accessibility"
      = "You ranked " ++ "Better accessibility" ++ " first; recall " ++
          "Better accessibility" ++ " was your answer." ∧
    ChatApi.applyTopRiskSubstitution
        ("Risk: " ++ "$\x7be://Field/TopRisk\x7d" ++ " and again " ++
          "$\x7be://Field/TopRisk\x7d" ++ ".") "Privacy loss"
      = "Risk: " ++ "Privacy loss" ++ " and again " ++ "Privacy loss" ++ "." ∧
    ChatApi.applyParticipantIdSubstitution "No placeholders here." ""
      = "No placeholders here." :=
  ⟨(c10_placeholder_substitution.2.2.2 "Better accessibility" "You ranked "
      " first; recall " " was your answer." (by decide) (by decide) (by decide)
      (by decide) (by decide)).1 _ (by decide),
   ((c10_placeholder_substitution.2.2.2 "Privacy loss" "Risk: " " and again " "."
      (by decide) (by decide) (by decide) (by decide) (by decide)).2.1 _ (by decide)),
   c10_placeholder_substitution.2.2.1 "No placeholders here."⟩
